import Mathlib

/-!
GForms backend (`src/backend/main.go`): a shallow embedding

The handlers of the Go program are embedded as pure functions over an explicit
store state.  What the program obtains from outside its own source (the uuid
and password libraries, the clock, the database's id generator, whether a
store call fails) is gathered in `Env` and taken as a parameter, so every
theorem holds for all behaviours of those collaborators.

Conventions

* a table is the list of its rows in storage order; a read returns the rows it
  selects in that order;
* GORM's soft delete is explicit: a row is visible to a read iff its
  `DeletedAt` is `none`;
* a request body is given by the result of `ShouldBindJSON`:
  `Except.error msg` when binding fails, `Except.ok v` when it yields `v`;
* `Env.fault k` is the error, if any, that the store raises at the `k`-th store
  call in the text of the handler being run (numbered from 0);
* an `Outcome` records the response written, the committed store state, the
  store and library calls made, in order, and whether the handler panicked.
-/

set_option autoImplicit false

namespace GForms

/-! ## Entities -/

/-- A `uuid.UUID` value; `0` stands for `uuid.Nil`. -/
abbrev UUID := Nat

/-- The zero UUID, `uuid.Nil`. -/
def uuidNil : UUID := 0

/-- A `time.Time`, in nanoseconds; `0` is the zero time. -/
abbrev Time := Int

/-- The duration `time.Hour`, in nanoseconds. -/
def Hour : Int := 3600000000000

/-- The struct `Question`. -/
structure Question where
  ID : UUID
  FormID : UUID
  Text : String
  Type_ : String
  IsRequired : Bool
  ExtraInfo : String
  CreatedAt : Time
  UpdatedAt : Time
  DeletedAt : Option Time
deriving DecidableEq, Repr

/-- The struct `Form`.  A row of the forms table keeps `Questions` empty; the
field is filled by `Preload("Questions")`. -/
structure Form where
  ID : UUID
  Title : String
  Description : String
  CreatorUserID : String
  Questions : List Question
  CreatedAt : Time
  UpdatedAt : Time
  DeletedAt : Option Time
deriving DecidableEq, Repr

/-- The struct `QuestionRequest`. -/
structure QuestionRequest where
  Text : String
  Type_ : String
  IsRequired : Bool
  ExtraInfo : String
deriving DecidableEq, Repr

/-- The struct `Answer`. -/
structure Answer where
  ID : UUID
  ResponseID : UUID
  QuestionID : UUID
  Value : String
  CreatedAt : Time
  UpdatedAt : Time
  DeletedAt : Option Time
deriving DecidableEq, Repr

/-- The struct `Response`.  A row of the responses table keeps `Answers`
empty. -/
structure Response where
  ID : UUID
  FormID : UUID
  RespondentUserID : String
  Answers : List Answer
  CreatedAt : Time
  UpdatedAt : Time
  DeletedAt : Option Time
deriving DecidableEq, Repr

/-- The struct `User`. -/
structure User where
  ID : UUID
  Username : String
  Email : String
  Password : String
  Verified : Bool
  CreatedAt : Time
  UpdatedAt : Time
  DeletedAt : Option Time
deriving DecidableEq, Repr

/-- The struct `Verification`; the first four fields are the embedded
`gorm.Model` (serial key, `0` when unset). -/
structure Verification where
  ID : Nat
  CreatedAt : Time
  UpdatedAt : Time
  DeletedAt : Option Time
  UserID : UUID
  VerificationCode : String
  ExpiresAt : Time
deriving DecidableEq, Repr

/-- The struct `SignupRequest`. -/
structure SignupRequest where
  Username : String
  Email : String
  Password : String
deriving DecidableEq, Repr

/-! ## Store, environment, outcome -/

/-- The database: one list of rows per table, and the next value of the serial
key of the verifications table. -/
structure DB where
  forms : List Form
  questions : List Question
  responses : List Response
  answers : List Answer
  users : List User
  verifications : List Verification
  nextSerial : Nat
deriving DecidableEq, Repr

/-- What a handler obtains from outside the program's source. -/
structure Env where
  /-- `uuid.Parse`; also how the store reads a text parameter compared with a
  uuid column. -/
  parseUUID : String → Option UUID
  /-- The method `UUID.String`. -/
  uuidString : UUID → String
  /-- `hasher.Hash` followed by `digest.Encode`: the encoded digest, or the
  error of `Hash`. -/
  hash : String → Except String String
  /-- `crypt.CheckPassword password encodedDigest`. -/
  checkPassword : String → String → Except String Bool
  /-- The `k`-th reading of `time.Now()` made by the handler. -/
  now : Nat → Time
  /-- The time the store stamps on the rows it writes. -/
  dbNow : Time
  /-- The `k`-th identifier drawn (`gen_random_uuid()` or `uuid.New()`). -/
  rand : Nat → UUID
  /-- The error raised by the `k`-th store call of the handler, if any. -/
  fault : Nat → Option String
  /-- `AppConfig.UserVerification`. -/
  userVerification : Bool

/-- The JSON value handed to `c.JSON`. -/
inductive Body where
  /-- The object `gin.H` with the single key "error" and a string. -/
  | err (msg : String)
  /-- The object `gin.H` with the key "error" bound to an error value of the
  store. -/
  | errValue (e : String)
  /-- A bare JSON string. -/
  | str (s : String)
  | form (f : Form)
  | response (r : Response)
  | user (u : User)
  /-- The object `gin.H` with the keys "username", "email" and "message". -/
  | profile (username email message : String)
  | forms (fs : List Form)
  | responses (rs : List Response)
deriving DecidableEq, Repr

/-- What the handler wrote to the client. -/
inductive Resp where
  /-- Nothing was written by the handler. -/
  | none
  /-- The call `c.JSON(status, body)`. -/
  | json (status : Nat) (body : Body)
  /-- The call `http.Redirect` with that status and target. -/
  | redirect (status : Nat) (location : String)
deriving DecidableEq, Repr

/-- The store and library calls a handler can make. -/
inductive Call where
  | GetFormByID
  | CreateResponse
  | Begin
  | DeleteQuestions
  | CreateQuestions
  | Rollback
  | Commit
  | FindUserByEmail
  | CountUsersByEmail
  | FindUserByUsername
  | CountUsersByUsername
  | Hash
  | CreateUser
  | CreateVerification
  | FindVerification
  | FirstUser
  | SaveUser
  | DeleteVerification
  | CheckPassword
  | SessionSave
  | CreateForm
  | GetAllFormsByUser
  | GetResponsesByFormID
deriving DecidableEq, Repr

/-- The result of running a handler. -/
structure Outcome where
  resp : Resp
  db : DB
  trace : List Call
  panicked : Bool
deriving DecidableEq, Repr

/-- The status of a response; a handler that writes nothing leaves gin's
default, 200. -/
def Resp.status : Resp → Nat
  | Resp.none => 200
  | Resp.json s _ => s
  | Resp.redirect s _ => s

/-! ## Database functions -/

/-- The questions `Preload("Questions")` attaches to the form `id`: the rows
bound to it that are not soft-deleted. -/
def preloadQuestions (db : DB) (id : UUID) : List Question :=
  db.questions.filter (fun q => decide (q.FormID = id) && q.DeletedAt.isNone)

/-- `GetFormByID`, as the `k`-th store call: `.ok none` is the pair
`(nil, nil)` returned on `gorm.ErrRecordNotFound`, `.error e` another store
error. -/
def GetFormByID (env : Env) (db : DB) (k : Nat) (id : String) : Except String (Option Form) :=
  match env.fault k with
  | some e => .error e
  | none =>
    match db.forms.find? (fun f => f.DeletedAt.isNone && decide (env.parseUUID id = some f.ID)) with
    | none => .ok none
    | some f => .ok (some { f with Questions := preloadQuestions db f.ID })

/-- The identifier the store gives a row: the one supplied when it is not
`uuid.Nil`, else a generated one (`default:gen_random_uuid()`). -/
def assignID (supplied generated : UUID) : UUID :=
  if supplied = uuidNil then generated else supplied

/-- The timestamp the store gives a row: the one supplied when it is not the
zero time, else the store's current time. -/
def assignTime (supplied : Time) (dbNow : Time) : Time :=
  if supplied = 0 then dbNow else supplied

/-- The answers of a response as `DB.Create` completes them: the `i`-th answer
draws identifier `i + 1`. -/
def stampAnswers (env : Env) (rid : UUID) : List Answer → Nat → List Answer
  | [], _ => []
  | a :: rest, i =>
    { a with
      ID := assignID a.ID (env.rand (i + 1)),
      ResponseID := rid,
      CreatedAt := assignTime a.CreatedAt env.dbNow,
      UpdatedAt := assignTime a.UpdatedAt env.dbNow } :: stampAnswers env rid rest (i + 1)

/-- `CreateResponse`, as the `k`-th store call: `DB.Create(response)` inserts
the response row and its nested answers, and writes the generated identifiers
and timestamps back into the value.  Nested rows are appended; a nested row
sent with the identifier of a stored row, which the ORM would update in place,
is outside this model. -/
def CreateResponse (env : Env) (db : DB) (k : Nat) (response : Response) :
    Except String (Response × DB) :=
  match env.fault k with
  | some e => .error e
  | none =>
    let rid := assignID response.ID (env.rand 0)
    let answers := stampAnswers env rid response.Answers 0
    let row : Response :=
      { response with
        ID := rid,
        Answers := [],
        CreatedAt := assignTime response.CreatedAt env.dbNow,
        UpdatedAt := assignTime response.UpdatedAt env.dbNow }
    .ok ({ row with Answers := answers },
         { db with responses := db.responses ++ [row], answers := db.answers ++ answers })

/-! ## `submitResponseHandler` -/

/-- The loop that fills `questionMap`: a Go map as an association list whose
most recent binding comes first, so a later question with the same ID
overrides an earlier one. -/
def buildQuestionMap (questions : List Question) : List (UUID × Question) :=
  questions.foldl (fun m q => (q.ID, q) :: m) []

/-- The loop over `newResponse.Answers`: the first failing answer ends the
handler with its response; otherwise the final `answeredQuestions` (the keys
set to true) is returned. -/
def checkAnswers (env : Env) (questionMap : List (UUID × Question)) :
    List Answer → List UUID → Except Resp (List UUID)
  | [], answeredQuestions => .ok answeredQuestions
  | ans :: rest, answeredQuestions =>
    match questionMap.lookup ans.QuestionID with
    | Option.none =>
      .error (Resp.json 400
        (Body.err ("Invalid question ID in response: " ++ env.uuidString ans.QuestionID)))
    | some q =>
      if ans.Value = "" ∧ q.IsRequired = true then
        .error (Resp.json 400 (Body.err ("Missing answer for required question: " ++ q.Text)))
      else
        checkAnswers env questionMap rest (ans.QuestionID :: answeredQuestions)

/-- The loop over `targetForm.Questions` after the answers: the response for
the first required question without an entry in `answeredQuestions`. -/
def checkRequired : List Question → List UUID → Option Resp
  | [], _ => Option.none
  | q :: rest, answeredQuestions =>
    if q.IsRequired = true then
      if q.ID ∈ answeredQuestions then checkRequired rest answeredQuestions
      else some (Resp.json 400 (Body.err ("Missing answer for required question: " ++ q.Text)))
    else checkRequired rest answeredQuestions

/-- The handler of `POST /forms/:formId/responses`.  Store calls: 0
`GetFormByID`, 1 `CreateResponse`. -/
def submitResponseHandler (env : Env) (db : DB) (formIDStr : String)
    (body : Except String Response) : Outcome :=
  match env.parseUUID formIDStr with
  | Option.none => ⟨Resp.json 400 (Body.err "Invalid form ID format"), db, [], false⟩
  | some formID =>
    match GetFormByID env db 0 formIDStr with
    | .error _ =>
      ⟨Resp.json 500 (Body.err "Error retrieving form"), db, [Call.GetFormByID], false⟩
    | .ok Option.none =>
      ⟨Resp.json 404 (Body.err "Form not found"), db, [Call.GetFormByID], false⟩
    | .ok (some targetForm) =>
      match body with
      | .error e =>
        ⟨Resp.json 400 (Body.err ("Invalid or incomplete JSON request: " ++ e)), db,
          [Call.GetFormByID], false⟩
      | .ok newResponse =>
        match checkAnswers env (buildQuestionMap targetForm.Questions) newResponse.Answers [] with
        | .error r => ⟨r, db, [Call.GetFormByID], false⟩
        | .ok answeredQuestions =>
          match checkRequired targetForm.Questions answeredQuestions with
          | some r => ⟨r, db, [Call.GetFormByID], false⟩
          | Option.none =>
            match CreateResponse env db 1 { newResponse with FormID := formID } with
            | .error _ =>
              ⟨Resp.json 500 (Body.err "Could not save response"), db,
                [Call.GetFormByID, Call.CreateResponse], false⟩
            | .ok (created, db') =>
              ⟨Resp.json 201 (Body.response created), db',
                [Call.GetFormByID, Call.CreateResponse], false⟩

/-! ## `setQuestionsHandler` -/

/-- The statement `tx.Where("form_id = ?", formIDStr).Delete(&Question{})`: a
soft delete of the visible questions whose `form_id` is the given parameter. -/
def deleteQuestions (env : Env) (db : DB) (formIDStr : String) : DB :=
  { db with
    questions := db.questions.map (fun q =>
      if q.DeletedAt.isNone && decide (env.parseUUID formIDStr = some q.FormID) then
        { q with DeletedAt := some env.dbNow }
      else q) }

/-- The loop over `questionsRequest`, from index `i` on.  `foundForm` is the
pointer returned by `GetFormByID` (`none` is nil); reading `foundForm.ID`
through a nil pointer panics, which is the result `none`.  The two clock
readings of iteration `i` are readings `2 * i` and `2 * i + 1`. -/
def buildQuestions (env : Env) (foundForm : Option Form) :
    List QuestionRequest → Nat → Option (List Question)
  | [], _ => some []
  | r :: rest, i =>
    match foundForm with
    | Option.none => Option.none
    | some f =>
      match buildQuestions env foundForm rest (i + 1) with
      | Option.none => Option.none
      | some questions =>
        some ({ ID := uuidNil,
                FormID := f.ID,
                Text := r.Text,
                Type_ := r.Type_,
                IsRequired := r.IsRequired,
                ExtraInfo := r.ExtraInfo,
                CreatedAt := env.now (2 * i),
                UpdatedAt := env.now (2 * i + 1),
                DeletedAt := Option.none } :: questions)

/-- The rows `tx.Create(&questions)` inserts, with the identifiers the store
generates written back: the `i`-th row draws identifier `i`. -/
def stampQuestions (env : Env) : List Question → Nat → List Question
  | [], _ => []
  | q :: rest, i =>
    { q with
      ID := assignID q.ID (env.rand i),
      CreatedAt := assignTime q.CreatedAt env.dbNow,
      UpdatedAt := assignTime q.UpdatedAt env.dbNow } :: stampQuestions env rest (i + 1)

/-- The error of `tx.Create(&questions)` as the `k`-th store call: GORM
refuses an empty slice with `gorm.ErrEmptySlice` before any statement reaches
the store; for a non-empty slice the error is the store's, if any. -/
def createQuestionsError (env : Env) (k : Nat) : List Question → Option String
  | [] => some "empty slice found"
  | _ :: _ => env.fault k

/-- The handler of `PUT /forms/:formId/questions`.  Store calls: 0
`GetFormByID`, 1 `DB.Begin`, 2 the delete, 3 `tx.Create`, 4 `tx.Commit`.  A
failed `Begin` leaves its error on `tx`, so the delete then reports it.  The
`db` of the outcome is the committed state: the statements of the transaction
act on a working copy that only `Commit` installs. -/
def setQuestionsHandler (env : Env) (db : DB) (formIDStr : String)
    (body : Except String (List QuestionRequest)) : Outcome :=
  match GetFormByID env db 0 formIDStr with
  | .error _ => ⟨Resp.json 404 (Body.err "Form not found"), db, [Call.GetFormByID], false⟩
  | .ok foundForm =>
    match body with
    | .error e =>
      ⟨Resp.json 400 (Body.str ("Invalid or incomplete JSON request: " ++ e)), db,
        [Call.GetFormByID], false⟩
    | .ok questionsRequest =>
      if questionsRequest.length > 50 then
        ⟨Resp.json 400 (Body.str "Too many questions (max length is 50)"), db,
          [Call.GetFormByID], false⟩
      else
        match (env.fault 1).orElse (fun _ => env.fault 2) with
        | some _ =>
          ⟨Resp.none, db,
            [Call.GetFormByID, Call.Begin, Call.DeleteQuestions, Call.Rollback], false⟩
        | Option.none =>
          let tx := deleteQuestions env db formIDStr
          match buildQuestions env foundForm questionsRequest 0 with
          | Option.none =>
            ⟨Resp.none, db, [Call.GetFormByID, Call.Begin, Call.DeleteQuestions], true⟩
          | some questions =>
            match createQuestionsError env 3 questions with
            | some _ =>
              ⟨Resp.json 500 (Body.err "Could not save questions"), db,
                [Call.GetFormByID, Call.Begin, Call.DeleteQuestions, Call.CreateQuestions,
                  Call.Rollback], false⟩
            | Option.none =>
              let created := stampQuestions env questions 0
              let tx := { tx with questions := tx.questions ++ created }
              match foundForm with
              | Option.none =>
                ⟨Resp.none, db,
                  [Call.GetFormByID, Call.Begin, Call.DeleteQuestions, Call.CreateQuestions],
                  true⟩
              | some f =>
                ⟨Resp.json 200 (Body.form { f with Questions := created }),
                  (match env.fault 4 with
                   | some _ => db
                   | Option.none => tx),
                  [Call.GetFormByID, Call.Begin, Call.DeleteQuestions, Call.CreateQuestions,
                    Call.Commit], false⟩

/-! ## `signupHandler` and `verifyHandler` -/

/-- The chain `DB.Find(&User{}, cond).Count(&count)`, store calls `k` (the
`Find`) and `k + 1` (the `Count`): the number of visible users satisfying
`cond`; when either call fails `count` keeps the value it had. -/
def countUsers (env : Env) (db : DB) (k : Nat) (cond : User → Bool) (count : Nat) : Nat :=
  match env.fault k, env.fault (k + 1) with
  | Option.none, Option.none =>
    (db.users.filter (fun u => u.DeletedAt.isNone && cond u)).length
  | _, _ => count

/-- The handler of `POST /api/account/signup`.  Store calls: 0, 1 the count by
email, 2, 3 the count by username, 4 the creation of the user, 5 the creation
of the verification.  Identifier 0 is the user's, identifier 1 is `uuid.New()`. -/
def signupHandler (env : Env) (db : DB) (body : Except String SignupRequest) : Outcome :=
  match body with
  | .error e => ⟨Resp.json 400 (Body.err e), db, [], false⟩
  | .ok signupRequest =>
    let count := countUsers env db 0 (fun u => decide (u.Email = signupRequest.Email)) 0
    if count > 0 then
      ⟨Resp.json 400 (Body.err "Email already exists"), db,
        [Call.FindUserByEmail, Call.CountUsersByEmail], false⟩
    else
      let count := countUsers env db 2 (fun u => decide (u.Username = signupRequest.Username)) count
      if count > 0 then
        ⟨Resp.json 400 (Body.err "Username already exists"), db,
          [Call.FindUserByEmail, Call.CountUsersByEmail, Call.FindUserByUsername,
            Call.CountUsersByUsername], false⟩
      else
        match env.hash signupRequest.Password with
        | .error e =>
          ⟨Resp.json 500 (Body.err e), db,
            [Call.FindUserByEmail, Call.CountUsersByEmail, Call.FindUserByUsername,
              Call.CountUsersByUsername, Call.Hash], false⟩
        | .ok encoded =>
          match env.fault 4 with
          | some e =>
            ⟨Resp.json 500 (Body.errValue e), db,
              [Call.FindUserByEmail, Call.CountUsersByEmail, Call.FindUserByUsername,
                Call.CountUsersByUsername, Call.Hash, Call.CreateUser], false⟩
          | Option.none =>
            let newUser : User :=
              { ID := assignID uuidNil (env.rand 0),
                Username := signupRequest.Username,
                Email := signupRequest.Email,
                Password := encoded,
                Verified := false,
                CreatedAt := assignTime 0 env.dbNow,
                UpdatedAt := assignTime 0 env.dbNow,
                DeletedAt := Option.none }
            let db1 := { db with users := db.users ++ [newUser] }
            let newUserVerification : Verification :=
              { ID := db.nextSerial,
                CreatedAt := assignTime 0 env.dbNow,
                UpdatedAt := assignTime 0 env.dbNow,
                DeletedAt := Option.none,
                UserID := newUser.ID,
                VerificationCode := env.uuidString (env.rand 1),
                ExpiresAt := env.now 0 + 150 * Hour }
            ⟨Resp.json 201 (Body.user newUser),
              (match env.fault 5 with
               | some _ => db1
               | Option.none =>
                 { db1 with
                   verifications := db1.verifications ++ [newUserVerification],
                   nextSerial := db1.nextSerial + 1 }),
              [Call.FindUserByEmail, Call.CountUsersByEmail, Call.FindUserByUsername,
                Call.CountUsersByUsername, Call.Hash, Call.CreateUser, Call.CreateVerification],
              false⟩

/-- The zero value of `Verification`, what `var verification Verification`
holds when `DB.Find` loads nothing into it. -/
def zeroVerification : Verification :=
  { ID := 0, CreatedAt := 0, UpdatedAt := 0, DeletedAt := Option.none, UserID := uuidNil,
    VerificationCode := "", ExpiresAt := 0 }

/-- `DB.Find(&verification, "verification_code = ?", code)` as the `k`-th
store call: the first visible row with that code, else the zero value (also
when the call fails, its error being dropped). -/
def findVerification (env : Env) (db : DB) (k : Nat) (code : String) : Verification :=
  match env.fault k with
  | some _ => zeroVerification
  | Option.none =>
    (db.verifications.find? (fun v => v.DeletedAt.isNone && decide (v.VerificationCode = code))).getD
      zeroVerification

/-- `DB.First(&user, id)` as the `k`-th store call: the visible user with that
key; `none` when the call reports an error, be it a store failure or
`gorm.ErrRecordNotFound`. -/
def firstUser (env : Env) (db : DB) (k : Nat) (id : UUID) : Option User :=
  match env.fault k with
  | some _ => Option.none
  | Option.none => db.users.find? (fun u => u.DeletedAt.isNone && decide (u.ID = id))

/-- `DB.Save(&user)`: the visible row with the user's key takes the user's
fields, stamped by the store. -/
def saveUser (env : Env) (db : DB) (user : User) : DB :=
  { db with
    users := db.users.map (fun u =>
      if u.DeletedAt.isNone && decide (u.ID = user.ID) then { user with UpdatedAt := env.dbNow }
      else u) }

/-- `DB.Delete(&verification)`: `Verification` embeds `gorm.Model`, whose
`DeletedAt` makes this a soft delete of the visible row with that key. -/
def deleteVerification (env : Env) (db : DB) (verification : Verification) : DB :=
  { db with
    verifications := db.verifications.map (fun v =>
      if v.DeletedAt.isNone && decide (v.ID = verification.ID) then
        { v with DeletedAt := some env.dbNow }
      else v) }

/-- The handler of `POST /api/account/verify`.  Store calls: 0 the lookup of
the verification, 1 `DB.First(&user, verification.UserID)`, 2 `DB.Save`, 3
`DB.Delete`; the errors of calls 0, 2 and 3 are dropped by the handler. -/
def verifyHandler (env : Env) (db : DB) (verificationParam : String) : Outcome :=
  let verification := findVerification env db 0 verificationParam
  if verification.ID = 0 then
    ⟨Resp.json 404 (Body.err "Invalid verification code"), db, [Call.FindVerification], false⟩
  else if env.now 0 > verification.ExpiresAt then
    ⟨Resp.json 400 (Body.err "Verification code has expired"), db, [Call.FindVerification],
      false⟩
  else
    match firstUser env db 1 verification.UserID with
    | Option.none =>
      ⟨Resp.json 500 (Body.err "Failed to fetch user data"), db,
        [Call.FindVerification, Call.FirstUser], false⟩
    | some user =>
      let db1 :=
        match env.fault 2 with
        | some _ => db
        | Option.none => saveUser env db { user with Verified := true }
      let db2 :=
        match env.fault 3 with
        | some _ => db1
        | Option.none => deleteVerification env db1 verification
      ⟨Resp.none, db2,
        [Call.FindVerification, Call.FirstUser, Call.SaveUser, Call.DeleteVerification], false⟩

/-! ## `signinHandler` -/

/-- The zero value of `User`, what `var user User` holds when `DB.Find` loads
nothing into it. -/
def zeroUser : User :=
  { ID := uuidNil, Username := "", Email := "", Password := "", Verified := false,
    CreatedAt := 0, UpdatedAt := 0, DeletedAt := Option.none }

/-- `DB.Find(&user, cond)` as the `k`-th store call: the first visible row
satisfying `cond`, else the zero value (also when the call fails, its error
being dropped). -/
def findUser (env : Env) (db : DB) (k : Nat) (cond : User → Bool) : User :=
  match env.fault k with
  | some _ => zeroUser
  | Option.none => (db.users.find? (fun u => u.DeletedAt.isNone && cond u)).getD zeroUser

/-- The result of a handler that may write the session: the value stored under
the session key "username" after the call (`none` when the key is absent). -/
structure SessionOutcome where
  out : Outcome
  session : Option String
deriving DecidableEq, Repr

/-- The handler of `POST /api/account/signin`, run with the session holding
`session` under "username".  Store call: 0 the lookup by email, whose error
is dropped. -/
def signinHandler (env : Env) (db : DB) (session : Option String)
    (body : Except String SignupRequest) : SessionOutcome :=
  match body with
  | .error e => ⟨⟨Resp.json 400 (Body.err e), db, [], false⟩, session⟩
  | .ok loginRequest =>
    let user := findUser env db 0 (fun u => decide (u.Email = loginRequest.Email))
    if user.ID = uuidNil then
      ⟨⟨Resp.json 403 (Body.err "Wrong credentials"), db, [Call.FindUserByEmail], false⟩, session⟩
    else if env.userVerification = true ∧ user.Verified = false then
      ⟨⟨Resp.json 403 (Body.err "Account not verified"), db, [Call.FindUserByEmail], false⟩,
        session⟩
    else
      match env.checkPassword loginRequest.Password user.Password with
      | .ok true =>
        ⟨⟨Resp.json 200 (Body.profile user.Username user.Email "Signed in successfully"), db,
            [Call.FindUserByEmail, Call.CheckPassword, Call.SessionSave], false⟩,
          some user.Username⟩
      | _ =>
        ⟨⟨Resp.json 403 (Body.err "Wrong credentials"), db,
            [Call.FindUserByEmail, Call.CheckPassword], false⟩, session⟩

/-! ## `createFormHandler`, `listFormsHandler` and the read handlers -/

/-- The questions of a form as `DB.Create` completes them: bound to the form,
the `i`-th question drawing identifier `i + 1`. -/
def stampFormQuestions (env : Env) (fid : UUID) : List Question → Nat → List Question
  | [], _ => []
  | q :: rest, i =>
    { q with
      ID := assignID q.ID (env.rand (i + 1)),
      FormID := fid,
      CreatedAt := assignTime q.CreatedAt env.dbNow,
      UpdatedAt := assignTime q.UpdatedAt env.dbNow } :: stampFormQuestions env fid rest (i + 1)

/-- `CreateForm`, as the `k`-th store call: `DB.Create(form)` inserts the form
row and its nested questions, and writes the generated identifiers and
timestamps back into the value.  Nested rows are appended; a nested row sent
with the identifier of a stored row, which the ORM would update in place, is
outside this model. -/
def CreateForm (env : Env) (db : DB) (k : Nat) (form : Form) : Except String (Form × DB) :=
  match env.fault k with
  | some e => .error e
  | Option.none =>
    let fid := assignID form.ID (env.rand 0)
    let questions := stampFormQuestions env fid form.Questions 0
    let row : Form :=
      { form with
        ID := fid,
        Questions := [],
        CreatedAt := assignTime form.CreatedAt env.dbNow,
        UpdatedAt := assignTime form.UpdatedAt env.dbNow }
    .ok ({ row with Questions := questions },
         { db with forms := db.forms ++ [row], questions := db.questions ++ questions })

/-- `GetAllFormsByUser`, as the `k`-th store call: the visible forms whose
`creator_user_id` is `userId`, latest `created_at` first, each with its
questions preloaded. -/
def GetAllFormsByUser (env : Env) (db : DB) (k : Nat) (userId : String) :
    Except String (List Form) :=
  match env.fault k with
  | some e => .error e
  | Option.none =>
    .ok (((db.forms.filter (fun f => f.DeletedAt.isNone && decide (f.CreatorUserID = userId))).insertionSort
        (fun a b => b.CreatedAt ≤ a.CreatedAt)).map
      (fun f => { f with Questions := preloadQuestions db f.ID }))

/-- `GetResponsesByFormID`, as the `k`-th store call: the visible responses
whose `form_id` is the given parameter, latest `created_at` first, each with
its visible answers preloaded. -/
def GetResponsesByFormID (env : Env) (db : DB) (k : Nat) (formID : String) :
    Except String (List Response) :=
  match env.fault k with
  | some e => .error e
  | Option.none =>
    .ok (((db.responses.filter
          (fun r => r.DeletedAt.isNone && decide (env.parseUUID formID = some r.FormID))).insertionSort
        (fun a b => b.CreatedAt ≤ a.CreatedAt)).map
      (fun r =>
        { r with
          Answers := db.answers.filter
            (fun a => decide (a.ResponseID = r.ID) && a.DeletedAt.isNone) }))

/-- The loop of `createFormHandler` that gives the type "text" to the
questions sent without a type. -/
def defaultTypes (questions : List Question) : List Question :=
  questions.map (fun q => if q.Type_ = "" then { q with Type_ := "text" } else q)

/-- The handler of `POST /forms`, run with the session holding `session` under
"username".  Store calls: 0 the lookup of the user by username, whose error
is dropped, 1 `CreateForm`. -/
def createFormHandler (env : Env) (db : DB) (session : Option String)
    (body : Except String Form) : Outcome :=
  match session with
  | Option.none => ⟨Resp.redirect 303 "/api/account/login", db, [], false⟩
  | some username =>
    match body with
    | .error e =>
      ⟨Resp.json 400 (Body.err ("Invalid or incomplete JSON request: " ++ e)), db, [], false⟩
    | .ok newForm =>
      let newForm := { newForm with Questions := defaultTypes newForm.Questions }
      let userFound := findUser env db 0 (fun u => decide (u.Username = username))
      if userFound.ID = uuidNil then
        ⟨Resp.json 500 (Body.err "User not found"), db, [Call.FindUserByUsername], false⟩
      else
        match CreateForm env db 1
            { newForm with CreatorUserID := env.uuidString userFound.ID } with
        | .error _ =>
          ⟨Resp.json 500 (Body.err "Could not save form"), db,
            [Call.FindUserByUsername, Call.CreateForm], false⟩
        | .ok (created, db') =>
          ⟨Resp.json 201 (Body.form created), db',
            [Call.FindUserByUsername, Call.CreateForm], false⟩

/-- The handler of `GET /forms`.  Store calls: 0 the lookup of the user by
username, whose error is dropped, 1 `GetAllFormsByUser`. -/
def listFormsHandler (env : Env) (db : DB) (session : Option String) : Outcome :=
  match session with
  | Option.none => ⟨Resp.redirect 303 "/api/account/login", db, [], false⟩
  | some username =>
    let userFound := findUser env db 0 (fun u => decide (u.Username = username))
    if userFound.ID = uuidNil then
      ⟨Resp.json 500 (Body.err "User not found"), db, [Call.FindUserByUsername], false⟩
    else
      match GetAllFormsByUser env db 1 (env.uuidString userFound.ID) with
      | .error _ =>
        ⟨Resp.json 500 (Body.err "Error retrieving forms"), db,
          [Call.FindUserByUsername, Call.GetAllFormsByUser], false⟩
      | .ok allForms =>
        ⟨Resp.json 200 (Body.forms allForms), db,
          [Call.FindUserByUsername, Call.GetAllFormsByUser], false⟩

/-- The handler of `GET /forms/:formId`.  Store call: 0 `GetFormByID`. -/
def getFormHandler (env : Env) (db : DB) (formID : String) : Outcome :=
  match GetFormByID env db 0 formID with
  | .error _ =>
    ⟨Resp.json 500 (Body.err "Error retrieving form"), db, [Call.GetFormByID], false⟩
  | .ok Option.none => ⟨Resp.json 404 (Body.err "Form not found"), db, [Call.GetFormByID], false⟩
  | .ok (some form) => ⟨Resp.json 200 (Body.form form), db, [Call.GetFormByID], false⟩

/-- The handler of `GET /forms/:formId/responses`.  Store call: 0
`GetResponsesByFormID`. -/
def getFormResponsesHandler (env : Env) (db : DB) (formID : String) : Outcome :=
  match GetResponsesByFormID env db 0 formID with
  | .error _ =>
    ⟨Resp.json 500 (Body.err "Error retrieving responses"), db, [Call.GetResponsesByFormID],
      false⟩
  | .ok responses =>
    ⟨Resp.json 200 (Body.responses responses), db, [Call.GetResponsesByFormID], false⟩

/-! ## Properties named by the specification -/

/-- A sequence of verify requests carrying the same code, one environment per
request, run one after the other: the store after the last one and the
responses in order. -/
def verifyCalls (code : String) : List Env → DB → DB × List Resp
  | [], db => (db, [])
  | env :: rest, db =>
    ((verifyCalls code rest (verifyHandler env db code).db).1,
      (verifyHandler env db code).resp :: (verifyCalls code rest (verifyHandler env db code).db).2)

/-- The first required question, in schema order, whose ID is not among the
answered ones. -/
def firstUnanswered (questions : List Question) (answered : List UUID) : Option Question :=
  questions.find? (fun q => q.IsRequired && decide (q.ID ∉ answered))

/-- The three conditions of acceptance: every answer names a question of the
form, no answer to a required question is empty, every required question has
an answer. -/
def ValidSubmission (questions : List Question) (answers : List Answer) : Prop :=
  (∀ a ∈ answers, ∃ q ∈ questions, q.ID = a.QuestionID) ∧
  (∀ a ∈ answers, ∀ q ∈ questions, q.ID = a.QuestionID → q.IsRequired = true → a.Value ≠ "") ∧
  (∀ q ∈ questions, q.IsRequired = true → ∃ a ∈ answers, a.QuestionID = q.ID)

/-! ## Concrete scenarios -/

/-- A sample environment: no store call fails. -/
def demoEnv : Env :=
  { parseUUID := fun s => if s = "F7" then some 7 else if s = "F8" then some 8 else Option.none,
    uuidString := fun u => if u = 9 then "Q9" else "Q",
    hash := fun p => .ok ("$argon2id$" ++ p),
    checkPassword := fun p d => .ok (decide (d = "$argon2id$" ++ p)),
    now := fun _ => 1000,
    dbNow := 1000,
    rand := fun k => 100 + k,
    fault := fun _ => Option.none,
    userVerification := true }

/-- A question row of form 7. -/
def demoQuestion (id : UUID) (text : String) (required : Bool) : Question :=
  { ID := id, FormID := 7, Text := text, Type_ := "text", IsRequired := required,
    ExtraInfo := "", CreatedAt := 1, UpdatedAt := 1, DeletedAt := Option.none }

/-- The row of form 7. -/
def demoFormRow : Form :=
  { ID := 7, Title := "Survey", Description := "", CreatorUserID := "U1", Questions := [],
    CreatedAt := 1, UpdatedAt := 1, DeletedAt := Option.none }

/-- A store holding form 7 with the given questions. -/
def demoStore (questions : List Question) : DB :=
  { forms := [demoFormRow], questions := questions, responses := [], answers := [],
    users := [], verifications := [], nextSerial := 1 }

/-- The schema of the spec's scenarios: Q1 required, Q2 optional. -/
def demoQuestions : List Question :=
  [demoQuestion 1 "Age" true, demoQuestion 2 "Comment" false]

/-- Two required questions with the same text and different IDs. -/
def twinQuestions : List Question :=
  [demoQuestion 1 "Name" true, demoQuestion 2 "Name" true]

/-- A submitted answer. -/
def demoAnswer (questionID : UUID) (value : String) : Answer :=
  { ID := uuidNil, ResponseID := uuidNil, QuestionID := questionID, Value := value,
    CreatedAt := 0, UpdatedAt := 0, DeletedAt := Option.none }

/-- A submission with the given answers. -/
def demoResponse (answers : List Answer) : Response :=
  { ID := uuidNil, FormID := uuidNil, RespondentUserID := "R1", Answers := answers,
    CreatedAt := 0, UpdatedAt := 0, DeletedAt := Option.none }

/-- The sample environment with the store failing at call `k`. -/
def faultyEnv (k : Nat) : Env :=
  { demoEnv with fault := fun i => if i = k then some "connection reset" else Option.none }

/-- A candidate question of a replacement request. -/
def demoRequest (text : String) : QuestionRequest :=
  { Text := text, Type_ := "text", IsRequired := false, ExtraInfo := "" }

/-- A store with no rows. -/
def emptyStore : DB :=
  { forms := [], questions := [], responses := [], answers := [], users := [],
    verifications := [], nextSerial := 1 }

/-- A signup request. -/
def demoSignup : SignupRequest :=
  { Username := "ann", Email := "a@x.com", Password := "hunter2" }

/-- The stored user a first signup of `demoSignup` creates in `demoEnv`. -/
def demoUser : User :=
  { ID := 100, Username := "ann", Email := "a@x.com", Password := "$argon2id$hunter2",
    Verified := false, CreatedAt := 1000, UpdatedAt := 1000, DeletedAt := Option.none }

/-- The verification a first signup of `demoSignup` creates in `demoEnv`. -/
def demoVerification : Verification :=
  { ID := 1, CreatedAt := 1000, UpdatedAt := 1000, DeletedAt := Option.none, UserID := 100,
    VerificationCode := "Q", ExpiresAt := 1000 + 150 * Hour }

/-- The sample environment with the clock reading `t`. -/
def envAt (t : Time) : Env :=
  { demoEnv with now := fun _ => t }

/-- A store whose only rows are the given users. -/
def usersStore (users : List User) : DB :=
  { emptyStore with users := users }

/-- The user `demoUser` once verified. -/
def verifiedUser : User :=
  { demoUser with Verified := true }

/-- A signin request for the email of `demoUser`. -/
def demoSignin (password : String) : SignupRequest :=
  { Username := "", Email := "a@x.com", Password := password }

/-- A form as bound from a request body that claims the creator `creator`. -/
def demoFormBody (creator : String) : Form :=
  { ID := uuidNil, Title := "Poll", Description := "", CreatorUserID := creator,
    Questions := [], CreatedAt := 0, UpdatedAt := 0, DeletedAt := Option.none }

/-- The sample environment with the store failing at call `k` with the error
`e`. -/
def failingEnv (k : Nat) (e : String) : Env :=
  { demoEnv with fault := fun i => if i = k then some e else Option.none }

/-! ## Lemmas on the response validation -/

theorem foldl_questionMap (qs : List Question) (acc : List (UUID × Question)) :
    qs.foldl (fun m q => (q.ID, q) :: m) acc = qs.reverse.map (fun q => (q.ID, q)) ++ acc := by
  induction qs generalizing acc with
  | nil => simp
  | cons q qs ih => simp [List.foldl, ih]

theorem lookup_map_ID (id : UUID) (l : List Question) :
    (l.map (fun q => (q.ID, q))).lookup id = l.find? (fun q => id == q.ID) := by
  induction l with
  | nil => simp
  | cons q l ih =>
    simp only [List.map_cons, List.lookup_cons, List.find?_cons, ih]

theorem lookup_buildQuestionMap (id : UUID) (qs : List Question) :
    (buildQuestionMap qs).lookup id = qs.reverse.find? (fun q => id == q.ID) := by
  unfold buildQuestionMap
  rw [foldl_questionMap, List.append_nil, lookup_map_ID]

theorem lookup_some_mem {id : UUID} {qs : List Question} {q : Question}
    (h : (buildQuestionMap qs).lookup id = some q) : q ∈ qs ∧ q.ID = id := by
  rw [lookup_buildQuestionMap] at h
  have h1 := List.mem_of_find?_eq_some h
  have h2 := List.find?_some h
  simp at h1 h2
  exact ⟨h1, h2.symm⟩

theorem lookup_none_iff (id : UUID) (qs : List Question) :
    (buildQuestionMap qs).lookup id = none ↔ ∀ q ∈ qs, q.ID ≠ id := by
  rw [lookup_buildQuestionMap, List.find?_eq_none]
  simp only [List.mem_reverse, beq_iff_eq, ne_eq]
  constructor
  · intro h q hq e
    exact h q hq e.symm
  · intro h q hq e
    exact h q hq e.symm

theorem lookup_of_nodup {qs : List Question} (hnd : (qs.map (fun q => q.ID)).Nodup)
    {q : Question} (hq : q ∈ qs) : (buildQuestionMap qs).lookup q.ID = some q := by
  cases hl : (buildQuestionMap qs).lookup q.ID with
  | none => exact absurd rfl ((lookup_none_iff q.ID qs).1 hl q hq)
  | some q' =>
    obtain ⟨hm, hid⟩ := lookup_some_mem hl
    rw [List.inj_on_of_nodup_map hnd hm hq hid]

theorem checkAnswers_ok_iff (env : Env) (m : List (UUID × Question)) (answers : List Answer)
    (acc r : List UUID) :
    checkAnswers env m answers acc = .ok r ↔
      (∀ a ∈ answers, ∃ q, m.lookup a.QuestionID = some q ∧ ¬(a.Value = "" ∧ q.IsRequired = true)) ∧
        r = (answers.map (fun a => a.QuestionID)).reverse ++ acc := by
  induction answers generalizing acc with
  | nil =>
    simp only [checkAnswers, Except.ok.injEq, List.not_mem_nil, false_implies, implies_true,
      true_and, List.map_nil, List.reverse_nil, List.nil_append]
    exact eq_comm
  | cons a rest ih =>
    unfold checkAnswers
    cases hl : m.lookup a.QuestionID with
    | none => simp [hl]
    | some q =>
      by_cases hc : a.Value = "" ∧ q.IsRequired = true
      · simp [hl, hc]
      · simp only [hc, if_false, ih, List.mem_cons, forall_eq_or_imp, hl, Option.some.injEq,
          exists_eq_left', not_false_eq_true, true_and, List.map_cons, List.reverse_cons,
          List.append_assoc, List.singleton_append]

theorem checkAnswers_error (env : Env) (m : List (UUID × Question)) (answers : List Answer)
    (acc : List UUID) (r : Resp) (h : checkAnswers env m answers acc = .error r) :
    ∃ msg, r = Resp.json 400 (Body.err msg) := by
  induction answers generalizing acc with
  | nil => simp [checkAnswers] at h
  | cons a rest ih =>
    unfold checkAnswers at h
    cases hl : m.lookup a.QuestionID with
    | none =>
      simp only [hl, Except.error.injEq] at h
      exact ⟨_, h.symm⟩
    | some q =>
      simp only [hl] at h
      split at h
      · simp only [Except.error.injEq] at h
        exact ⟨_, h.symm⟩
      · exact ih _ h

theorem checkRequired_eq (qs : List Question) (answered : List UUID) :
    checkRequired qs answered =
      (firstUnanswered qs answered).map (fun q =>
        Resp.json 400 (Body.err ("Missing answer for required question: " ++ q.Text))) := by
  unfold firstUnanswered
  induction qs with
  | nil => simp [checkRequired]
  | cons q rest ih =>
    unfold checkRequired
    by_cases hreq : q.IsRequired = true
    · by_cases hmem : q.ID ∈ answered
      · simp [hreq, hmem, ih, List.find?_cons]
      · simp [hreq, hmem, List.find?_cons]
    · simp [hreq, ih, List.find?_cons]

theorem checkRequired_none_iff (qs : List Question) (answered : List UUID) :
    checkRequired qs answered = none ↔ ∀ q ∈ qs, q.IsRequired = true → q.ID ∈ answered := by
  rw [checkRequired_eq, Option.map_eq_none', firstUnanswered, List.find?_eq_none]
  simp

theorem GetFormByID_some {env : Env} {db : DB} {k : Nat} {id : String} {f : Form}
    (h : GetFormByID env db k id = .ok (some f)) :
    env.fault k = none ∧ env.parseUUID id = some f.ID ∧
      f.Questions = preloadQuestions db f.ID ∧
      ∃ row, db.forms.find? (fun f => f.DeletedAt.isNone && decide (env.parseUUID id = some f.ID))
          = some row ∧ f = { row with Questions := preloadQuestions db row.ID } := by
  unfold GetFormByID at h
  cases hf : env.fault k with
  | some e => simp [hf] at h
  | none =>
    simp only [hf] at h
    cases hr : db.forms.find? (fun f => f.DeletedAt.isNone && decide (env.parseUUID id = some f.ID)) with
    | none => simp [hr] at h
    | some row =>
      simp only [hr, Except.ok.injEq, Option.some.injEq] at h
      have hp := List.find?_some hr
      simp only [Bool.and_eq_true, decide_eq_true_eq] at hp
      subst h
      exact ⟨rfl, hp.2, rfl, row, rfl, rfl⟩

theorem checkRequired_some (qs : List Question) (answered : List UUID) (r : Resp)
    (h : checkRequired qs answered = some r) : ∃ msg, r = Resp.json 400 (Body.err msg) := by
  rw [checkRequired_eq] at h
  cases hf : firstUnanswered qs answered with
  | none => simp [hf] at h
  | some q =>
    simp only [hf, Option.map_some', Option.some.injEq] at h
    exact ⟨_, h.symm⟩

theorem checks_pass_iff (env : Env) (qs : List Question) (answers : List Answer)
    (hnodup : (qs.map (fun q => q.ID)).Nodup) :
    (∃ answered, checkAnswers env (buildQuestionMap qs) answers [] = .ok answered ∧
        checkRequired qs answered = none) ↔ ValidSubmission qs answers := by
  constructor
  · rintro ⟨answered, h1, h2⟩
    rw [checkAnswers_ok_iff] at h1
    obtain ⟨hall, rfl⟩ := h1
    rw [checkRequired_none_iff] at h2
    refine ⟨?_, ?_, ?_⟩
    · intro a ha
      obtain ⟨q, hq, _⟩ := hall a ha
      obtain ⟨hm, hid⟩ := lookup_some_mem hq
      exact ⟨q, hm, hid⟩
    · intro a ha q hq hid hreq hval
      obtain ⟨q', hq', hno⟩ := hall a ha
      have := lookup_of_nodup hnodup hq
      rw [hid, hq'] at this
      cases this
      exact hno ⟨hval, hreq⟩
    · intro q hq hreq
      have := h2 q hq hreq
      simp only [List.append_nil, List.mem_reverse, List.mem_map] at this
      exact this
  · rintro ⟨c1, c2, c3⟩
    refine ⟨(answers.map (fun a => a.QuestionID)).reverse ++ [], ?_, ?_⟩
    · rw [checkAnswers_ok_iff]
      refine ⟨?_, rfl⟩
      intro a ha
      obtain ⟨q, hq, hid⟩ := c1 a ha
      refine ⟨q, ?_, ?_⟩
      · rw [← hid]; exact lookup_of_nodup hnodup hq
      · rintro ⟨hval, hreq⟩
        exact c2 a ha q hq hid hreq hval
    · rw [checkRequired_none_iff]
      intro q hq hreq
      simp only [List.append_nil, List.mem_reverse, List.mem_map]
      exact c3 q hq hreq

/-- C1: for an existing form whose questions have pairwise distinct IDs and a
bound submission, `submitResponseHandler` reaches `CreateResponse` exactly when
every answer names a question of the form, no answer to a required question is
empty and every required question has an answer; when the store call succeeds
that is also exactly when it answers 201. -/
theorem submit_accepts_iff_valid (env : Env) (db : DB) (formIDStr : String) (targetForm : Form)
    (newResponse : Response)
    (hform : GetFormByID env db 0 formIDStr = .ok (some targetForm))
    (hnodup : (targetForm.Questions.map (fun q => q.ID)).Nodup) :
    (Call.CreateResponse ∈ (submitResponseHandler env db formIDStr (.ok newResponse)).trace ↔
        ValidSubmission targetForm.Questions newResponse.Answers) ∧
      (env.fault 1 = none →
        ((submitResponseHandler env db formIDStr (.ok newResponse)).resp.status = 201 ↔
          ValidSubmission targetForm.Questions newResponse.Answers)) := by
  have hparse := (GetFormByID_some hform).2.1
  rw [← checks_pass_iff env targetForm.Questions newResponse.Answers hnodup]
  unfold submitResponseHandler
  simp only [hparse, hform]
  cases h1 : checkAnswers env (buildQuestionMap targetForm.Questions) newResponse.Answers [] with
  | error r =>
    obtain ⟨msg, rfl⟩ := checkAnswers_error _ _ _ _ _ h1
    simp [Resp.status]
  | ok answered =>
    cases h2 : checkRequired targetForm.Questions answered with
    | some r =>
      obtain ⟨msg, rfl⟩ := checkRequired_some _ _ _ h2
      simp [Resp.status, h2]
    | none =>
      constructor
      · cases h3 : CreateResponse env db 1 { newResponse with FormID := targetForm.ID } with
        | error e => simp [h2]
        | ok p => simp [h2]
      · intro hf
        simp [CreateResponse, hf, Resp.status, h2]

/-- Witness of C1 on the spec's first scenario: form 7 with Q1 required and Q2
optional, and the single answer (Q1, "42"). -/
theorem submit_accepts_iff_valid_witness :
    GetFormByID demoEnv (demoStore demoQuestions) 0 "F7" =
        .ok (some { demoFormRow with Questions := demoQuestions }) ∧
      (demoQuestions.map (fun q => q.ID)).Nodup ∧
      ((Call.CreateResponse ∈
            (submitResponseHandler demoEnv (demoStore demoQuestions) "F7"
              (.ok (demoResponse [demoAnswer 1 "42"]))).trace ↔
          ValidSubmission demoQuestions [demoAnswer 1 "42"]) ∧
        (demoEnv.fault 1 = none →
          ((submitResponseHandler demoEnv (demoStore demoQuestions) "F7"
              (.ok (demoResponse [demoAnswer 1 "42"]))).resp.status = 201 ↔
            ValidSubmission demoQuestions [demoAnswer 1 "42"]))) :=
  ⟨rfl, by decide,
    submit_accepts_iff_valid demoEnv (demoStore demoQuestions) "F7"
      { demoFormRow with Questions := demoQuestions } (demoResponse [demoAnswer 1 "42"]) rfl
      (by decide)⟩

/-- C2: for an existing form and a bound submission holding, at any position,
an answer whose question ID is the ID of no question of the form,
`submitResponseHandler` answers 400, does not call `CreateResponse` and leaves
the store as it was. -/
theorem submit_unknown_question_rejected (env : Env) (db : DB) (formIDStr : String)
    (targetForm : Form) (newResponse : Response) (a : Answer)
    (hform : GetFormByID env db 0 formIDStr = .ok (some targetForm))
    (ha : a ∈ newResponse.Answers)
    (hunknown : ∀ q ∈ targetForm.Questions, q.ID ≠ a.QuestionID) :
    (∃ msg, (submitResponseHandler env db formIDStr (.ok newResponse)).resp =
        Resp.json 400 (Body.err msg)) ∧
      Call.CreateResponse ∉ (submitResponseHandler env db formIDStr (.ok newResponse)).trace ∧
      (submitResponseHandler env db formIDStr (.ok newResponse)).db = db := by
  have hparse := (GetFormByID_some hform).2.1
  unfold submitResponseHandler
  simp only [hparse, hform]
  cases h1 : checkAnswers env (buildQuestionMap targetForm.Questions) newResponse.Answers [] with
  | error r =>
    obtain ⟨msg, rfl⟩ := checkAnswers_error _ _ _ _ _ h1
    simp
  | ok answered =>
    rw [checkAnswers_ok_iff] at h1
    obtain ⟨q, hq, _⟩ := h1.1 a ha
    rw [(lookup_none_iff a.QuestionID targetForm.Questions).2 hunknown] at hq
    cases hq

/-- Witness of C2 on the spec's third scenario, the unknown question coming
after a valid answer. -/
theorem submit_unknown_question_rejected_witness :
    GetFormByID demoEnv (demoStore demoQuestions) 0 "F7" =
        .ok (some { demoFormRow with Questions := demoQuestions }) ∧
      demoAnswer 9 "x" ∈ [demoAnswer 1 "42", demoAnswer 9 "x"] ∧
      (∀ q ∈ demoQuestions, q.ID ≠ (demoAnswer 9 "x").QuestionID) ∧
      ((∃ msg, (submitResponseHandler demoEnv (demoStore demoQuestions) "F7"
            (.ok (demoResponse [demoAnswer 1 "42", demoAnswer 9 "x"]))).resp =
          Resp.json 400 (Body.err msg)) ∧
        Call.CreateResponse ∉ (submitResponseHandler demoEnv (demoStore demoQuestions) "F7"
            (.ok (demoResponse [demoAnswer 1 "42", demoAnswer 9 "x"]))).trace ∧
        (submitResponseHandler demoEnv (demoStore demoQuestions) "F7"
            (.ok (demoResponse [demoAnswer 1 "42", demoAnswer 9 "x"]))).db =
          demoStore demoQuestions) :=
  ⟨rfl, by decide, by decide,
    submit_unknown_question_rejected demoEnv (demoStore demoQuestions) "F7"
      { demoFormRow with Questions := demoQuestions }
      (demoResponse [demoAnswer 1 "42", demoAnswer 9 "x"]) (demoAnswer 9 "x") rfl (by decide)
      (by decide)⟩

/-- C3 as stated fails: on a form with two required questions of the same text
and different IDs, the submission answering only the first and the one
answering only the second miss different questions, yet get the same response;
nothing read off the response tells the two IDs apart. -/
theorem submit_missing_required_hides_id :
    firstUnanswered twinQuestions [1] = some (demoQuestion 2 "Name" true) ∧
      firstUnanswered twinQuestions [2] = some (demoQuestion 1 "Name" true) ∧
      (submitResponseHandler demoEnv (demoStore twinQuestions) "F7"
          (.ok (demoResponse [demoAnswer 1 "x"]))).resp =
        Resp.json 400 (Body.err "Missing answer for required question: Name") ∧
      (submitResponseHandler demoEnv (demoStore twinQuestions) "F7"
          (.ok (demoResponse [demoAnswer 2 "x"]))).resp =
        Resp.json 400 (Body.err "Missing answer for required question: Name") ∧
      ¬ ∃ idOf : Resp → UUID,
          idOf (submitResponseHandler demoEnv (demoStore twinQuestions) "F7"
              (.ok (demoResponse [demoAnswer 1 "x"]))).resp = 2 ∧
            idOf (submitResponseHandler demoEnv (demoStore twinQuestions) "F7"
              (.ok (demoResponse [demoAnswer 2 "x"]))).resp = 1 := by
  have h1 : (submitResponseHandler demoEnv (demoStore twinQuestions) "F7"
      (.ok (demoResponse [demoAnswer 1 "x"]))).resp =
        Resp.json 400 (Body.err "Missing answer for required question: Name") := by decide
  have h2 : (submitResponseHandler demoEnv (demoStore twinQuestions) "F7"
      (.ok (demoResponse [demoAnswer 2 "x"]))).resp =
        Resp.json 400 (Body.err "Missing answer for required question: Name") := by decide
  refine ⟨by decide, by decide, h1, h2, ?_⟩
  rintro ⟨idOf, e1, e2⟩
  rw [h1] at e1
  rw [h2, e1] at e2
  exact absurd e2 (by decide)

theorem firstUnanswered_congr (qs : List Question) (l₁ l₂ : List UUID)
    (h : ∀ x, x ∈ l₁ ↔ x ∈ l₂) : firstUnanswered qs l₁ = firstUnanswered qs l₂ := by
  unfold firstUnanswered
  congr 1
  funext q
  simp [h]

/-- C3, amended: when every answer passes the per-answer checks and some
required question has no answer, `submitResponseHandler` answers 400 with the
message "Missing answer for required question: " followed by the text of the
first required question, in schema order, that has no answer; it does not call
`CreateResponse` and leaves the store as it was. -/
theorem submit_missing_required_reports_text (env : Env) (db : DB) (formIDStr : String)
    (targetForm : Form) (newResponse : Response) (answered : List UUID)
    (hform : GetFormByID env db 0 formIDStr = .ok (some targetForm))
    (hanswers : checkAnswers env (buildQuestionMap targetForm.Questions) newResponse.Answers [] =
      .ok answered)
    (hmissing : ∃ q ∈ targetForm.Questions, q.IsRequired = true ∧
      ∀ a ∈ newResponse.Answers, a.QuestionID ≠ q.ID) :
    ∃ q, firstUnanswered targetForm.Questions
          (newResponse.Answers.map (fun a => a.QuestionID)) = some q ∧
      (submitResponseHandler env db formIDStr (.ok newResponse)).resp =
        Resp.json 400 (Body.err ("Missing answer for required question: " ++ q.Text)) ∧
      Call.CreateResponse ∉ (submitResponseHandler env db formIDStr (.ok newResponse)).trace ∧
      (submitResponseHandler env db formIDStr (.ok newResponse)).db = db := by
  have hparse := (GetFormByID_some hform).2.1
  have hset := ((checkAnswers_ok_iff _ _ _ _ _).1 hanswers).2
  have hcongr : firstUnanswered targetForm.Questions answered =
      firstUnanswered targetForm.Questions (newResponse.Answers.map (fun a => a.QuestionID)) := by
    apply firstUnanswered_congr
    intro x
    rw [hset]
    simp
  obtain ⟨q0, hq0, hreq, hno⟩ := hmissing
  cases hfirst : firstUnanswered targetForm.Questions
      (newResponse.Answers.map (fun a => a.QuestionID)) with
  | none =>
    exfalso
    unfold firstUnanswered at hfirst
    rw [List.find?_eq_none] at hfirst
    have := hfirst q0 hq0
    simp only [hreq, Bool.true_and, decide_eq_true_eq, not_not, List.mem_map] at this
    obtain ⟨a, ha, he⟩ := this
    exact hno a ha he
  | some q =>
    refine ⟨q, rfl, ?_⟩
    have hreq : checkRequired targetForm.Questions answered = some
        (Resp.json 400 (Body.err ("Missing answer for required question: " ++ q.Text))) := by
      rw [checkRequired_eq, hcongr, hfirst]; rfl
    unfold submitResponseHandler
    simp [hparse, hform, hanswers, hreq]

/-- Witness of C3 amended on the spec's second scenario: Q1 required, Q2
optional, the only answer given to Q2. -/
theorem submit_missing_required_reports_text_witness :
    GetFormByID demoEnv (demoStore demoQuestions) 0 "F7" =
        .ok (some { demoFormRow with Questions := demoQuestions }) ∧
      checkAnswers demoEnv (buildQuestionMap demoQuestions) [demoAnswer 2 "x"] [] = .ok [2] ∧
      (∃ q ∈ demoQuestions, q.IsRequired = true ∧
        ∀ a ∈ [demoAnswer 2 "x"], a.QuestionID ≠ q.ID) ∧
      ∃ q, firstUnanswered demoQuestions ([demoAnswer 2 "x"].map (fun a => a.QuestionID)) =
            some q ∧
        (submitResponseHandler demoEnv (demoStore demoQuestions) "F7"
            (.ok (demoResponse [demoAnswer 2 "x"]))).resp =
          Resp.json 400 (Body.err ("Missing answer for required question: " ++ q.Text)) ∧
        Call.CreateResponse ∉ (submitResponseHandler demoEnv (demoStore demoQuestions) "F7"
            (.ok (demoResponse [demoAnswer 2 "x"]))).trace ∧
        (submitResponseHandler demoEnv (demoStore demoQuestions) "F7"
            (.ok (demoResponse [demoAnswer 2 "x"]))).db = demoStore demoQuestions :=
  ⟨rfl, rfl, ⟨demoQuestion 1 "Age" true, by decide, rfl, by decide⟩,
    submit_missing_required_reports_text demoEnv (demoStore demoQuestions) "F7"
      { demoFormRow with Questions := demoQuestions } (demoResponse [demoAnswer 2 "x"]) [2] rfl rfl
      ⟨demoQuestion 1 "Age" true, by decide, rfl, by decide⟩⟩

/-! ## Replacement of a form's questions -/

/-- C4, the code at a failing input: form 8 does not exist (`GetFormByID`
returns no form and no error), the body holds one question.  The handler
answers no 404: it opens the transaction, runs the delete and panics on
`foundForm.ID`.  With an empty body it also opens the transaction and runs the
delete, then the insert of the empty slice is refused and the answer is 500
"Could not save questions" after a rollback.  For no body at all is the answer
404. -/
theorem setQuestions_missing_form_panics :
    GetFormByID demoEnv (demoStore demoQuestions) 0 "F8" = .ok none ∧
      setQuestionsHandler demoEnv (demoStore demoQuestions) "F8" (.ok [demoRequest "New"]) =
        ⟨Resp.none, demoStore demoQuestions,
          [Call.GetFormByID, Call.Begin, Call.DeleteQuestions], true⟩ ∧
      setQuestionsHandler demoEnv (demoStore demoQuestions) "F8" (.ok []) =
        ⟨Resp.json 500 (Body.err "Could not save questions"), demoStore demoQuestions,
          [Call.GetFormByID, Call.Begin, Call.DeleteQuestions, Call.CreateQuestions,
            Call.Rollback], false⟩ ∧
      ∀ body, (setQuestionsHandler demoEnv (demoStore demoQuestions) "F8" body).resp.status ≠
        404 := by
  refine ⟨rfl, by decide, by decide, ?_⟩
  intro body
  have hget : GetFormByID demoEnv (demoStore demoQuestions) 0 "F8" = .ok none := rfl
  have hf : ∀ k, demoEnv.fault k = none := fun _ => rfl
  unfold setQuestionsHandler
  rw [hget]
  cases body with
  | error e => simp [Resp.status]
  | ok qs =>
    simp only [hf, Option.orElse]
    split
    · simp [Resp.status]
    · cases qs with
      | nil => simp [buildQuestions, createQuestionsError, Resp.status]
      | cons r rest => simp [buildQuestions, Resp.status]

theorem buildQuestions_some (env : Env) (f : Form) (qs : List QuestionRequest) (i : Nat) :
    ∃ l, buildQuestions env (some f) qs i = some l ∧
      l.map (fun q => (q.Text, q.Type_, q.IsRequired, q.ExtraInfo)) =
        qs.map (fun r => (r.Text, r.Type_, r.IsRequired, r.ExtraInfo)) ∧
      ∀ q ∈ l, q.FormID = f.ID ∧ q.DeletedAt = none := by
  induction qs generalizing i with
  | nil => exact ⟨[], rfl, rfl, by simp⟩
  | cons r rest ih =>
    obtain ⟨l, hl, hmap, hall⟩ := ih (i + 1)
    refine ⟨_, by rw [buildQuestions, hl], ?_, ?_⟩
    · simp [hmap]
    · intro q hq
      rcases List.mem_cons.1 hq with rfl | hq
      · exact ⟨rfl, rfl⟩
      · exact hall q hq

theorem stampQuestions_spec (env : Env) (l : List Question) (i : Nat) :
    (stampQuestions env l i).map (fun q => (q.Text, q.Type_, q.IsRequired, q.ExtraInfo)) =
        l.map (fun q => (q.Text, q.Type_, q.IsRequired, q.ExtraInfo)) ∧
      ∀ (id : UUID), (∀ q ∈ l, q.FormID = id ∧ q.DeletedAt = none) →
        ∀ q ∈ stampQuestions env l i, q.FormID = id ∧ q.DeletedAt = none := by
  induction l generalizing i with
  | nil => exact ⟨rfl, by simp [stampQuestions]⟩
  | cons q rest ih =>
    obtain ⟨hmap, hall⟩ := ih (i + 1)
    refine ⟨by simp [stampQuestions, hmap], ?_⟩
    intro id h q' hq'
    simp only [stampQuestions, List.mem_cons] at hq'
    rcases hq' with rfl | hq'
    · exact h q (List.mem_cons_self _ _)
    · exact hall id (fun x hx => h x (List.mem_cons_of_mem _ hx)) q' hq'

/-- C5: for an existing form and a bound candidate list, `setQuestionsHandler`
answers 400 "Too many questions (max length is 50)" exactly when the list has
more than 50 entries; in that case no transaction is begun and the store,
hence what a read of the form returns, is unchanged. -/
theorem setQuestions_too_many_iff (env : Env) (db : DB) (formIDStr : String) (foundForm : Form)
    (questionsRequest : List QuestionRequest)
    (hform : GetFormByID env db 0 formIDStr = .ok (some foundForm)) :
    ((setQuestionsHandler env db formIDStr (.ok questionsRequest)).resp =
          Resp.json 400 (Body.str "Too many questions (max length is 50)") ↔
        50 < questionsRequest.length) ∧
      (50 < questionsRequest.length →
        Call.Begin ∉ (setQuestionsHandler env db formIDStr (.ok questionsRequest)).trace ∧
          (setQuestionsHandler env db formIDStr (.ok questionsRequest)).db = db ∧
          GetFormByID env (setQuestionsHandler env db formIDStr (.ok questionsRequest)).db 0
            formIDStr = .ok (some foundForm)) := by
  unfold setQuestionsHandler
  simp only [hform]
  by_cases hlen : questionsRequest.length > 50
  · simp [hlen, hform]
  · obtain ⟨l, hl, -, -⟩ := buildQuestions_some env foundForm questionsRequest 0
    simp only [hlen, if_false, hl]
    refine ⟨?_, fun h => h.elim⟩
    constructor
    · intro h
      exfalso
      split at h
      · simp at h
      · split at h
        · simp at h
        · simp at h
    · intro h
      exact h.elim

/-- Witness of C5 on the spec's sixth scenario: 51 candidate questions. -/
theorem setQuestions_too_many_iff_witness :
    GetFormByID demoEnv (demoStore demoQuestions) 0 "F7" =
        .ok (some { demoFormRow with Questions := demoQuestions }) ∧
      (((setQuestionsHandler demoEnv (demoStore demoQuestions) "F7"
              (.ok (List.replicate 51 (demoRequest "New")))).resp =
            Resp.json 400 (Body.str "Too many questions (max length is 50)") ↔
          50 < (List.replicate 51 (demoRequest "New")).length) ∧
        (50 < (List.replicate 51 (demoRequest "New")).length →
          Call.Begin ∉ (setQuestionsHandler demoEnv (demoStore demoQuestions) "F7"
              (.ok (List.replicate 51 (demoRequest "New")))).trace ∧
            (setQuestionsHandler demoEnv (demoStore demoQuestions) "F7"
              (.ok (List.replicate 51 (demoRequest "New")))).db = demoStore demoQuestions ∧
            GetFormByID demoEnv (setQuestionsHandler demoEnv (demoStore demoQuestions) "F7"
              (.ok (List.replicate 51 (demoRequest "New")))).db 0 "F7" =
                .ok (some { demoFormRow with Questions := demoQuestions }))) :=
  ⟨rfl, setQuestions_too_many_iff demoEnv (demoStore demoQuestions) "F7"
    { demoFormRow with Questions := demoQuestions } (List.replicate 51 (demoRequest "New")) rfl⟩

theorem deleteQuestions_hidden (env : Env) (db : DB) (formIDStr : String) (id : UUID)
    (hparse : env.parseUUID formIDStr = some id) :
    ∀ q ∈ (deleteQuestions env db formIDStr).questions, q.FormID = id → q.DeletedAt ≠ none := by
  intro q hq hid
  simp only [deleteQuestions, List.mem_map] at hq
  obtain ⟨q0, _, rfl⟩ := hq
  by_cases hc : (q0.DeletedAt.isNone && decide (env.parseUUID formIDStr = some q0.FormID)) = true
  · simp [hc]
  · simp only [hc, if_false, Bool.false_eq_true] at hid ⊢
    intro hnone
    apply hc
    simp [hnone, hparse, hid]

theorem preload_after_replace (env : Env) (db : DB) (formIDStr : String) (id : UUID)
    (created : List Question) (hparse : env.parseUUID formIDStr = some id)
    (hall : ∀ q ∈ created, q.FormID = id ∧ q.DeletedAt = none) :
    preloadQuestions
        { deleteQuestions env db formIDStr with
          questions := (deleteQuestions env db formIDStr).questions ++ created } id = created := by
  have h1 : (deleteQuestions env db formIDStr).questions.filter
      (fun q => decide (q.FormID = id) && q.DeletedAt.isNone) = [] := by
    rw [List.filter_eq_nil_iff]
    intro q hq hp
    simp only [Bool.and_eq_true, decide_eq_true_eq, Option.isNone_iff_eq_none] at hp
    exact deleteQuestions_hidden env db formIDStr id hparse q hq hp.1 hp.2
  have h2 : created.filter (fun q => decide (q.FormID = id) && q.DeletedAt.isNone) = created := by
    rw [List.filter_eq_self]
    intro q hq
    simp [hall q hq]
  simp only [preloadQuestions, List.filter_append, h1, h2, List.nil_append]

/-- C6 as stated fails on the empty list: form 7 exists with Q1 and Q2, the
candidate list is empty and no store call fails, yet `setQuestionsHandler`
answers 500 "Could not save questions" after a rollback, because the insert of
an empty slice is refused; the store is unchanged and a later read of the form
still returns Q1 and Q2. -/
theorem setQuestions_empty_list_refused :
    GetFormByID demoEnv (demoStore demoQuestions) 0 "F7" =
        .ok (some { demoFormRow with Questions := demoQuestions }) ∧
      ([] : List QuestionRequest).length ≤ 50 ∧
      (∀ k, demoEnv.fault k = none) ∧
      setQuestionsHandler demoEnv (demoStore demoQuestions) "F7" (.ok []) =
        ⟨Resp.json 500 (Body.err "Could not save questions"), demoStore demoQuestions,
          [Call.GetFormByID, Call.Begin, Call.DeleteQuestions, Call.CreateQuestions,
            Call.Rollback], false⟩ ∧
      (setQuestionsHandler demoEnv (demoStore demoQuestions) "F7" (.ok [])).resp.status ≠ 200 ∧
      GetFormByID demoEnv (setQuestionsHandler demoEnv (demoStore demoQuestions) "F7"
          (.ok [])).db 0 "F7" = .ok (some { demoFormRow with Questions := demoQuestions }) :=
  ⟨rfl, by decide, fun _ => rfl, by decide, by decide, rfl⟩

/-- C6, amended: for an existing form and a bound, non-empty candidate list of
at most 50 questions, when no store call fails `setQuestionsHandler` answers
200 with the form carrying the created questions; these follow the candidate
list entry by entry (text, type, required flag, extra info, in order), each
bound to the form's ID; a later read of the form returns exactly them; and
every row that was in the questions table and is bound to the form is now
soft-deleted. -/
theorem setQuestions_replaces (env : Env) (db : DB) (formIDStr : String) (foundForm : Form)
    (questionsRequest : List QuestionRequest)
    (hform : GetFormByID env db 0 formIDStr = .ok (some foundForm))
    (hnonempty : questionsRequest ≠ [])
    (hlen : questionsRequest.length ≤ 50)
    (hstore : ∀ k, env.fault k = none) :
    ∃ created : List Question,
      (setQuestionsHandler env db formIDStr (.ok questionsRequest)).resp =
          Resp.json 200 (Body.form { foundForm with Questions := created }) ∧
        created.map (fun q => (q.Text, q.Type_, q.IsRequired, q.ExtraInfo)) =
          questionsRequest.map (fun r => (r.Text, r.Type_, r.IsRequired, r.ExtraInfo)) ∧
        (∀ q ∈ created, q.FormID = foundForm.ID) ∧
        preloadQuestions (setQuestionsHandler env db formIDStr (.ok questionsRequest)).db
          foundForm.ID = created ∧
        GetFormByID env (setQuestionsHandler env db formIDStr (.ok questionsRequest)).db 0
          formIDStr = .ok (some { foundForm with Questions := created }) ∧
        ∃ old : List Question,
          (setQuestionsHandler env db formIDStr (.ok questionsRequest)).db.questions =
              old ++ created ∧
            old.length = db.questions.length ∧
            ∀ q ∈ old, q.FormID = foundForm.ID → q.DeletedAt ≠ none := by
  obtain ⟨hf0, hparse, -, row, hrow, hfound⟩ := GetFormByID_some hform
  obtain ⟨l, hl, hmap, hall⟩ := buildQuestions_some env foundForm questionsRequest 0
  obtain ⟨hmap', hall'⟩ := stampQuestions_spec env l 0
  have hcreated := hall' foundForm.ID hall
  have hout : setQuestionsHandler env db formIDStr (.ok questionsRequest) =
      ⟨Resp.json 200 (Body.form { foundForm with Questions := stampQuestions env l 0 }),
        { deleteQuestions env db formIDStr with
          questions := (deleteQuestions env db formIDStr).questions ++ stampQuestions env l 0 },
        [Call.GetFormByID, Call.Begin, Call.DeleteQuestions, Call.CreateQuestions, Call.Commit],
        false⟩ := by
    have hcreate : createQuestionsError env 3 l = none := by
      cases l with
      | nil =>
        cases questionsRequest with
        | nil => exact absurd rfl hnonempty
        | cons r rest => simp at hmap
      | cons q rest => exact hstore 3
    unfold setQuestionsHandler
    simp only [hform, Nat.not_lt.2 hlen, hstore, Option.orElse, hl, if_false, gt_iff_lt,
      hcreate]
  have hpre := preload_after_replace env db formIDStr foundForm.ID (stampQuestions env l 0)
    hparse hcreated
  refine ⟨stampQuestions env l 0, ?_, ?_, ?_, ?_, ?_, ?_⟩
  · rw [hout]
  · rw [hmap', hmap]
  · exact fun q hq => (hcreated q hq).1
  · rw [hout]; exact hpre
  · rw [hout]
    have hid : row.ID = foundForm.ID := by rw [hfound]
    have hforms : (deleteQuestions env db formIDStr).forms = db.forms := rfl
    unfold GetFormByID
    simp only [hf0, hforms, hrow, hid]
    simp only [preloadQuestions] at hpre ⊢
    rw [hpre, hfound]
  · rw [hout]
    refine ⟨(deleteQuestions env db formIDStr).questions, rfl, ?_, ?_⟩
    · simp [deleteQuestions]
    · exact deleteQuestions_hidden env db formIDStr foundForm.ID hparse

/-- Witness of C6 amended: form 7 takes one new question in place of Q1 and
Q2. -/
theorem setQuestions_replaces_witness :
    GetFormByID demoEnv (demoStore demoQuestions) 0 "F7" =
        .ok (some { demoFormRow with Questions := demoQuestions }) ∧
      [demoRequest "New"] ≠ [] ∧
      [demoRequest "New"].length ≤ 50 ∧
      (∀ k, demoEnv.fault k = none) ∧
      ∃ created : List Question,
        (setQuestionsHandler demoEnv (demoStore demoQuestions) "F7"
              (.ok [demoRequest "New"])).resp =
            Resp.json 200 (Body.form
              { ({ demoFormRow with Questions := demoQuestions } : Form) with
                Questions := created }) ∧
          created.map (fun q => (q.Text, q.Type_, q.IsRequired, q.ExtraInfo)) =
            [demoRequest "New"].map (fun r => (r.Text, r.Type_, r.IsRequired, r.ExtraInfo)) ∧
          (∀ q ∈ created, q.FormID = ({ demoFormRow with Questions := demoQuestions } : Form).ID) ∧
          preloadQuestions (setQuestionsHandler demoEnv (demoStore demoQuestions) "F7"
              (.ok [demoRequest "New"])).db
            ({ demoFormRow with Questions := demoQuestions } : Form).ID = created ∧
          GetFormByID demoEnv (setQuestionsHandler demoEnv (demoStore demoQuestions) "F7"
              (.ok [demoRequest "New"])).db 0 "F7" =
            .ok (some { ({ demoFormRow with Questions := demoQuestions } : Form) with
              Questions := created }) ∧
          ∃ old : List Question,
            (setQuestionsHandler demoEnv (demoStore demoQuestions) "F7"
                (.ok [demoRequest "New"])).db.questions = old ++ created ∧
              old.length = (demoStore demoQuestions).questions.length ∧
              ∀ q ∈ old, q.FormID = ({ demoFormRow with Questions := demoQuestions } : Form).ID →
                q.DeletedAt ≠ none :=
  ⟨rfl, by decide, by decide, fun _ => rfl,
    setQuestions_replaces demoEnv (demoStore demoQuestions) "F7"
      { demoFormRow with Questions := demoQuestions } [demoRequest "New"] rfl (by decide)
      (by decide) (fun _ => rfl)⟩

/-- C7: for an existing form and a bound candidate list of at most 50
questions, if the transaction begins and then the delete fails, or the insert
fails, `setQuestionsHandler` rolls back and never commits: the committed store
is the one before the call, and a later read of the form returns the
pre-replacement questions. -/
theorem setQuestions_atomic (env : Env) (db : DB) (formIDStr : String) (foundForm : Form)
    (questionsRequest : List QuestionRequest)
    (hform : GetFormByID env db 0 formIDStr = .ok (some foundForm))
    (hlen : questionsRequest.length ≤ 50)
    (hbegin : env.fault 1 = none)
    (hfail : env.fault 2 ≠ none ∨ (env.fault 2 = none ∧ env.fault 3 ≠ none)) :
    Call.Begin ∈ (setQuestionsHandler env db formIDStr (.ok questionsRequest)).trace ∧
      Call.Rollback ∈ (setQuestionsHandler env db formIDStr (.ok questionsRequest)).trace ∧
      Call.Commit ∉ (setQuestionsHandler env db formIDStr (.ok questionsRequest)).trace ∧
      (setQuestionsHandler env db formIDStr (.ok questionsRequest)).db = db ∧
      GetFormByID env (setQuestionsHandler env db formIDStr (.ok questionsRequest)).db 0
        formIDStr = .ok (some foundForm) := by
  obtain ⟨l, hl, -, -⟩ := buildQuestions_some env foundForm questionsRequest 0
  unfold setQuestionsHandler
  simp only [hform, Nat.not_lt.2 hlen, hbegin, Option.orElse, hl, if_false, gt_iff_lt]
  rcases hfail with h2 | ⟨h2, h3⟩
  · cases hf2 : env.fault 2 with
    | none => exact absurd hf2 h2
    | some e => simp [hform]
  · cases hf3 : env.fault 3 with
    | none => exact absurd hf3 h3
    | some e =>
      cases l with
      | nil => simp [h2, hform, createQuestionsError]
      | cons q rest => simp [h2, hform, createQuestionsError, hf3]

/-- Witness of C7: the insert of the new questions fails. -/
theorem setQuestions_atomic_witness :
    GetFormByID (faultyEnv 3) (demoStore demoQuestions) 0 "F7" =
        .ok (some { demoFormRow with Questions := demoQuestions }) ∧
      [demoRequest "New"].length ≤ 50 ∧
      (faultyEnv 3).fault 1 = none ∧
      ((faultyEnv 3).fault 2 ≠ none ∨ ((faultyEnv 3).fault 2 = none ∧ (faultyEnv 3).fault 3 ≠ none)) ∧
      (Call.Begin ∈ (setQuestionsHandler (faultyEnv 3) (demoStore demoQuestions) "F7"
            (.ok [demoRequest "New"])).trace ∧
        Call.Rollback ∈ (setQuestionsHandler (faultyEnv 3) (demoStore demoQuestions) "F7"
            (.ok [demoRequest "New"])).trace ∧
        Call.Commit ∉ (setQuestionsHandler (faultyEnv 3) (demoStore demoQuestions) "F7"
            (.ok [demoRequest "New"])).trace ∧
        (setQuestionsHandler (faultyEnv 3) (demoStore demoQuestions) "F7"
            (.ok [demoRequest "New"])).db = demoStore demoQuestions ∧
        GetFormByID (faultyEnv 3) (setQuestionsHandler (faultyEnv 3) (demoStore demoQuestions) "F7"
            (.ok [demoRequest "New"])).db 0 "F7" =
          .ok (some { demoFormRow with Questions := demoQuestions })) :=
  ⟨rfl, by decide, rfl, Or.inr ⟨rfl, by decide⟩,
    setQuestions_atomic (faultyEnv 3) (demoStore demoQuestions) "F7"
      { demoFormRow with Questions := demoQuestions } [demoRequest "New"] rfl (by decide) rfl
      (Or.inr ⟨rfl, by decide⟩)⟩

/-! ## Signup and verification -/

theorem countUsers_pos_iff (env : Env) (db : DB) (k : Nat) (cond : User → Bool) (count : Nat)
    (h0 : env.fault k = none) (h1 : env.fault (k + 1) = none) :
    countUsers env db k cond count > 0 ↔
      ∃ u ∈ db.users, u.DeletedAt = none ∧ cond u = true := by
  unfold countUsers
  simp only [h0, h1, gt_iff_lt, List.length_pos_iff_exists_mem, List.mem_filter,
    Bool.and_eq_true, Option.isNone_iff_eq_none]

/-- C8: when the store's reads succeed, `signupHandler` answers 400 "Email
already exists" if a visible user has exactly the requested email, otherwise
400 "Username already exists" if a visible user has exactly the requested
username, and otherwise gives neither answer and goes on to hash the password;
on either rejection the store is unchanged and neither the hasher nor a
creation is called. -/
theorem signup_rejects_duplicates (env : Env) (db : DB) (signupRequest : SignupRequest)
    (hreads : env.fault 0 = none ∧ env.fault 1 = none ∧ env.fault 2 = none ∧ env.fault 3 = none) :
    ((∃ u ∈ db.users, u.DeletedAt = none ∧ u.Email = signupRequest.Email) →
        signupHandler env db (.ok signupRequest) =
          ⟨Resp.json 400 (Body.err "Email already exists"), db,
            [Call.FindUserByEmail, Call.CountUsersByEmail], false⟩) ∧
      ((¬ ∃ u ∈ db.users, u.DeletedAt = none ∧ u.Email = signupRequest.Email) →
        (∃ u ∈ db.users, u.DeletedAt = none ∧ u.Username = signupRequest.Username) →
        signupHandler env db (.ok signupRequest) =
          ⟨Resp.json 400 (Body.err "Username already exists"), db,
            [Call.FindUserByEmail, Call.CountUsersByEmail, Call.FindUserByUsername,
              Call.CountUsersByUsername], false⟩) ∧
      ((¬ ∃ u ∈ db.users, u.DeletedAt = none ∧ u.Email = signupRequest.Email) →
        (¬ ∃ u ∈ db.users, u.DeletedAt = none ∧ u.Username = signupRequest.Username) →
        (signupHandler env db (.ok signupRequest)).resp ≠
            Resp.json 400 (Body.err "Email already exists") ∧
          (signupHandler env db (.ok signupRequest)).resp ≠
            Resp.json 400 (Body.err "Username already exists") ∧
          Call.Hash ∈ (signupHandler env db (.ok signupRequest)).trace) := by
  obtain ⟨h0, h1, h2, h3⟩ := hreads
  have he := fun c => countUsers_pos_iff env db 0
    (fun u => decide (u.Email = signupRequest.Email)) c h0 h1
  have hu := fun c => countUsers_pos_iff env db 2
    (fun u => decide (u.Username = signupRequest.Username)) c h2 h3
  simp only [decide_eq_true_eq] at he hu
  refine ⟨?_, ?_, ?_⟩
  · intro hdup
    unfold signupHandler
    simp only [(he 0).2 hdup, if_true]
  · intro hno hdup
    unfold signupHandler
    simp only [mt (he 0).1 hno, if_false, (hu _).2 hdup, if_true]
  · intro hno hno'
    unfold signupHandler
    simp only [mt (he 0).1 hno, if_false, mt (hu _).1 hno']
    cases env.hash signupRequest.Password with
    | error e => simp
    | ok encoded =>
      cases env.fault 4 with
      | some e => simp
      | none => simp

/-- Witness of C8 on the spec's fourth scenario: `demoSignup` submitted again
after a first signup stored `demoUser`. -/
theorem signup_rejects_duplicates_witness :
    (demoEnv.fault 0 = none ∧ demoEnv.fault 1 = none ∧ demoEnv.fault 2 = none ∧
        demoEnv.fault 3 = none) ∧
      (signupHandler demoEnv emptyStore (.ok demoSignup)).db.users = [demoUser] ∧
      (∃ u ∈ (signupHandler demoEnv emptyStore (.ok demoSignup)).db.users,
        u.DeletedAt = none ∧ u.Email = demoSignup.Email) ∧
      signupHandler demoEnv (signupHandler demoEnv emptyStore (.ok demoSignup)).db
          (.ok demoSignup) =
        ⟨Resp.json 400 (Body.err "Email already exists"),
          (signupHandler demoEnv emptyStore (.ok demoSignup)).db,
          [Call.FindUserByEmail, Call.CountUsersByEmail], false⟩ :=
  ⟨⟨rfl, rfl, rfl, rfl⟩, by decide, ⟨demoUser, by decide, rfl, rfl⟩,
    (signup_rejects_duplicates demoEnv (signupHandler demoEnv emptyStore (.ok demoSignup)).db
      demoSignup ⟨rfl, rfl, rfl, rfl⟩).1 ⟨demoUser, by decide, rfl, rfl⟩⟩

/-- C9: for a signup whose email and username no visible user has, when no
store call fails and the hasher returns `encoded` for the password,
`signupHandler` answers 201 with the new user and appends exactly one row to
the users table, with the requested username and email, `Verified = false` and
`encoded` as credential, and exactly one row to the verifications table, bound
to that user's ID and expiring 150 hours after the handler's clock reading. -/
theorem signup_creates_user_and_verification (env : Env) (db : DB)
    (signupRequest : SignupRequest) (encoded : String)
    (hemail : ∀ u ∈ db.users, u.DeletedAt = none → u.Email ≠ signupRequest.Email)
    (husername : ∀ u ∈ db.users, u.DeletedAt = none → u.Username ≠ signupRequest.Username)
    (hstore : ∀ k, env.fault k = none)
    (hhash : env.hash signupRequest.Password = .ok encoded) :
    ∃ (u : User) (v : Verification),
      (signupHandler env db (.ok signupRequest)).resp = Resp.json 201 (Body.user u) ∧
        (signupHandler env db (.ok signupRequest)).db.users = db.users ++ [u] ∧
        u.Username = signupRequest.Username ∧
        u.Email = signupRequest.Email ∧
        u.Verified = false ∧
        u.Password = encoded ∧
        u.DeletedAt = none ∧
        (signupHandler env db (.ok signupRequest)).db.verifications = db.verifications ++ [v] ∧
        v.UserID = u.ID ∧
        v.DeletedAt = none ∧
        v.ExpiresAt = env.now 0 + 150 * Hour := by
  have he := fun c => countUsers_pos_iff env db 0
    (fun u => decide (u.Email = signupRequest.Email)) c (hstore 0) (hstore 1)
  have hu := fun c => countUsers_pos_iff env db 2
    (fun u => decide (u.Username = signupRequest.Username)) c (hstore 2) (hstore 3)
  simp only [decide_eq_true_eq] at he hu
  have hno : ¬ ∃ u ∈ db.users, u.DeletedAt = none ∧ u.Email = signupRequest.Email :=
    fun ⟨u, hm, hd, h⟩ => hemail u hm hd h
  have hno' : ¬ ∃ u ∈ db.users, u.DeletedAt = none ∧ u.Username = signupRequest.Username :=
    fun ⟨u, hm, hd, h⟩ => husername u hm hd h
  unfold signupHandler
  simp only [mt (he 0).1 hno, if_false, mt (hu _).1 hno', hhash, hstore]
  exact ⟨_, _, rfl, rfl, rfl, rfl, rfl, rfl, rfl, rfl, rfl, rfl, rfl⟩

/-- Witness of C9: the first signup of `demoSignup` on an empty store. -/
theorem signup_creates_user_and_verification_witness :
    (∀ u ∈ emptyStore.users, u.DeletedAt = none → u.Email ≠ demoSignup.Email) ∧
      (∀ u ∈ emptyStore.users, u.DeletedAt = none → u.Username ≠ demoSignup.Username) ∧
      (∀ k, demoEnv.fault k = none) ∧
      demoEnv.hash demoSignup.Password = .ok "$argon2id$hunter2" ∧
      ∃ (u : User) (v : Verification),
        (signupHandler demoEnv emptyStore (.ok demoSignup)).resp = Resp.json 201 (Body.user u) ∧
          (signupHandler demoEnv emptyStore (.ok demoSignup)).db.users =
            emptyStore.users ++ [u] ∧
          u.Username = demoSignup.Username ∧
          u.Email = demoSignup.Email ∧
          u.Verified = false ∧
          u.Password = "$argon2id$hunter2" ∧
          u.DeletedAt = none ∧
          (signupHandler demoEnv emptyStore (.ok demoSignup)).db.verifications =
            emptyStore.verifications ++ [v] ∧
          v.UserID = u.ID ∧
          v.DeletedAt = none ∧
          v.ExpiresAt = demoEnv.now 0 + 150 * Hour :=
  ⟨by decide, by decide, fun _ => rfl, rfl,
    signup_creates_user_and_verification demoEnv emptyStore demoSignup "$argon2id$hunter2"
      (by decide) (by decide) (fun _ => rfl) rfl⟩

theorem findVerification_unique (env : Env) (db : DB) (v : Verification)
    (hmem : v ∈ db.verifications) (hvisible : v.DeletedAt = none)
    (hunique : ∀ w ∈ db.verifications, w.DeletedAt = none →
      w.VerificationCode = v.VerificationCode → w = v)
    (hread : env.fault 0 = none) :
    findVerification env db 0 v.VerificationCode = v := by
  unfold findVerification
  simp only [hread]
  cases hf : db.verifications.find?
      (fun w => w.DeletedAt.isNone && decide (w.VerificationCode = v.VerificationCode)) with
  | none =>
    rw [List.find?_eq_none] at hf
    have := hf v hmem
    simp [hvisible] at this
  | some w =>
    have hw := List.find?_some hf
    simp only [Bool.and_eq_true, Option.isNone_iff_eq_none, decide_eq_true_eq] at hw
    rw [hunique w (List.mem_of_find?_eq_some hf) hw.1 hw.2]
    rfl

theorem saveUser_verified (env : Env) (db : DB) (u : User) (id : UUID)
    (h : db.users.find? (fun u => u.DeletedAt.isNone && decide (u.ID = id)) = some u) :
    ∃ u' ∈ (saveUser env db { u with Verified := true }).users, u'.ID = id ∧ u'.Verified = true := by
  have hu := List.find?_some h
  simp only [Bool.and_eq_true, Option.isNone_iff_eq_none, decide_eq_true_eq] at hu
  refine ⟨{ u with Verified := true, UpdatedAt := env.dbNow }, ?_, hu.2, rfl⟩
  simp only [saveUser, List.mem_map]
  exact ⟨u, List.mem_of_find?_eq_some h, by simp [hu.1]⟩

/-- C10: let `v` be a visible stored verification with a nonzero key whose code
no other visible verification has, and let the lookup succeed.  Called with
`v`'s code when the clock is past `v.ExpiresAt`, `verifyHandler` answers 400
"Verification code has expired" and leaves the store as it was: no user is
saved, so the bound user's `Verified` is unchanged, and the verification is
not deleted.  When the clock equals `v.ExpiresAt` it does not report expiry: it
goes on to fetch the user and, when the user is found and the save succeeds,
the stored user is verified.  In particular a verification expiring 150 hours
after its issuance is reported expired 151 hours after it. -/
theorem verify_expired_strict (env : Env) (db : DB) (v : Verification)
    (hmem : v ∈ db.verifications) (hvisible : v.DeletedAt = none) (hkey : v.ID ≠ 0)
    (hunique : ∀ w ∈ db.verifications, w.DeletedAt = none →
      w.VerificationCode = v.VerificationCode → w = v)
    (hread : env.fault 0 = none) :
    (env.now 0 > v.ExpiresAt →
        (verifyHandler env db v.VerificationCode).resp =
            Resp.json 400 (Body.err "Verification code has expired") ∧
          (verifyHandler env db v.VerificationCode).db = db ∧
          Call.SaveUser ∉ (verifyHandler env db v.VerificationCode).trace ∧
          Call.DeleteVerification ∉ (verifyHandler env db v.VerificationCode).trace) ∧
      (env.now 0 = v.ExpiresAt →
        (verifyHandler env db v.VerificationCode).resp ≠
            Resp.json 400 (Body.err "Verification code has expired") ∧
          Call.FirstUser ∈ (verifyHandler env db v.VerificationCode).trace ∧
          ∀ u, firstUser env db 1 v.UserID = some u → env.fault 2 = none →
            (verifyHandler env db v.VerificationCode).resp = Resp.none ∧
              ∃ u' ∈ (verifyHandler env db v.VerificationCode).db.users,
                u'.ID = v.UserID ∧ u'.Verified = true) ∧
      (∀ issued : Time, v.ExpiresAt = issued + 150 * Hour → env.now 0 = issued + 151 * Hour →
        (verifyHandler env db v.VerificationCode).resp =
            Resp.json 400 (Body.err "Verification code has expired") ∧
          (verifyHandler env db v.VerificationCode).db = db) := by
  have hfind := findVerification_unique env db v hmem hvisible hunique hread
  have hexpired : env.now 0 > v.ExpiresAt →
      verifyHandler env db v.VerificationCode =
        ⟨Resp.json 400 (Body.err "Verification code has expired"), db,
          [Call.FindVerification], false⟩ := by
    intro hlt
    unfold verifyHandler
    simp only [hfind, hkey, if_false, hlt, if_true]
  refine ⟨?_, ?_, ?_⟩
  · intro hlt
    rw [hexpired hlt]
    simp
  · intro heq
    have hnot : ¬ env.now 0 > v.ExpiresAt := by rw [heq]; exact lt_irrefl _
    unfold verifyHandler
    simp only [hfind, hkey, if_false, hnot]
    cases hu : firstUser env db 1 v.UserID with
    | none => simp
    | some u =>
      refine ⟨by simp, by simp, ?_⟩
      intro u0 hu0 hsave
      cases hu0
      refine ⟨rfl, ?_⟩
      have hfirst : db.users.find? (fun u => u.DeletedAt.isNone && decide (u.ID = v.UserID)) =
          some u := by
        unfold firstUser at hu
        cases h1 : env.fault 1 with
        | none => simpa [h1] using hu
        | some e => simp [h1] at hu
      obtain ⟨u', hu', hid, hver⟩ := saveUser_verified env db u v.UserID hfirst
      refine ⟨u', ?_, hid, hver⟩
      simp only [hsave]
      cases env.fault 3 with
      | none => exact hu'
      | some e => exact hu'
  · intro issued hexp hnow
    have hlt : env.now 0 > v.ExpiresAt := by
      rw [hexp, hnow]
      have : (0 : Int) < Hour := by decide
      linarith
    rw [hexpired hlt]
    exact ⟨rfl, rfl⟩

/-- Witness of C10: the verification issued by the signup of `demoSignup` at
clock 1000, presented 151 hours later. -/
theorem verify_expired_strict_witness :
    demoVerification ∈ (signupHandler demoEnv emptyStore (.ok demoSignup)).db.verifications ∧
      demoVerification.DeletedAt = none ∧ demoVerification.ID ≠ 0 ∧
      (∀ w ∈ (signupHandler demoEnv emptyStore (.ok demoSignup)).db.verifications,
        w.DeletedAt = none → w.VerificationCode = demoVerification.VerificationCode →
          w = demoVerification) ∧
      (envAt (1000 + 151 * Hour)).fault 0 = none ∧
      (envAt (1000 + 151 * Hour)).now 0 > demoVerification.ExpiresAt ∧
      (verifyHandler (envAt (1000 + 151 * Hour))
            (signupHandler demoEnv emptyStore (.ok demoSignup)).db
            demoVerification.VerificationCode).resp =
          Resp.json 400 (Body.err "Verification code has expired") ∧
      (verifyHandler (envAt (1000 + 151 * Hour))
            (signupHandler demoEnv emptyStore (.ok demoSignup)).db
            demoVerification.VerificationCode).db =
          (signupHandler demoEnv emptyStore (.ok demoSignup)).db :=
  have hdb : (signupHandler demoEnv emptyStore (.ok demoSignup)).db.verifications =
      [demoVerification] := by decide
  have hmem : demoVerification ∈
      (signupHandler demoEnv emptyStore (.ok demoSignup)).db.verifications := by
    rw [hdb]; exact List.mem_singleton.2 rfl
  have hlt : (envAt (1000 + 151 * Hour)).now 0 > demoVerification.ExpiresAt := by decide
  have huniq : ∀ w ∈ (signupHandler demoEnv emptyStore (.ok demoSignup)).db.verifications,
      w.DeletedAt = none → w.VerificationCode = demoVerification.VerificationCode →
        w = demoVerification := by
    rw [hdb]; intro w hw _ _; exact List.mem_singleton.1 hw
  have h := (verify_expired_strict (envAt (1000 + 151 * Hour))
    (signupHandler demoEnv emptyStore (.ok demoSignup)).db demoVerification hmem rfl (by decide)
    huniq rfl).1 hlt
  ⟨hmem, rfl, by decide, huniq, rfl, hlt, h.1, h.2.1⟩

/-! ## Single use of a verification -/

theorem verify_unknown_code (env : Env) (db : DB) (code : String)
    (hnone : ∀ w ∈ db.verifications, w.DeletedAt = none → w.VerificationCode ≠ code) :
    verifyHandler env db code =
      ⟨Resp.json 404 (Body.err "Invalid verification code"), db, [Call.FindVerification],
        false⟩ := by
  have hfind : findVerification env db 0 code = zeroVerification := by
    unfold findVerification
    cases env.fault 0 with
    | some e => rfl
    | none =>
      have : db.verifications.find?
          (fun v => v.DeletedAt.isNone && decide (v.VerificationCode = code)) = none := by
        rw [List.find?_eq_none]
        intro w hw hp
        simp only [Bool.and_eq_true, Option.isNone_iff_eq_none, decide_eq_true_eq] at hp
        exact hnone w hw hp.1 hp.2
      simp only [this, Option.getD_none]
  unfold verifyHandler
  simp only [hfind, zeroVerification, if_true]

theorem verifyCalls_unknown_code (code : String) (envs : List Env) (db : DB)
    (hnone : ∀ w ∈ db.verifications, w.DeletedAt = none → w.VerificationCode ≠ code) :
    (verifyCalls code envs db).1 = db ∧
      ∀ r ∈ (verifyCalls code envs db).2,
        r = Resp.json 404 (Body.err "Invalid verification code") := by
  induction envs with
  | nil => exact ⟨rfl, by simp [verifyCalls]⟩
  | cons env rest ih =>
    simp only [verifyCalls, verify_unknown_code env db code hnone, List.mem_cons]
    refine ⟨ih.1, ?_⟩
    rintro r (rfl | hr)
    · rfl
    · exact ih.2 r hr

theorem deleteVerification_consumed (env : Env) (db : DB) (v : Verification)
    (hunique : ∀ w ∈ db.verifications, w.DeletedAt = none →
      w.VerificationCode = v.VerificationCode → w = v) :
    ∀ w ∈ (deleteVerification env db v).verifications, w.DeletedAt = none →
      w.VerificationCode ≠ v.VerificationCode := by
  intro w hw hvis hcode
  simp only [deleteVerification, List.mem_map] at hw
  obtain ⟨w0, hw0, rfl⟩ := hw
  by_cases hc : (w0.DeletedAt.isNone && decide (w0.ID = v.ID)) = true
  · simp [hc] at hvis
  · simp only [hc, if_false, Bool.false_eq_true] at hvis hcode
    have := hunique w0 hw0 hvis hcode
    subst this
    apply hc
    simp [hvis]

theorem saveUser_all_verified (env : Env) (db : DB) (u : User) :
    ∀ u' ∈ (saveUser env db { u with Verified := true }).users,
      u'.DeletedAt = none → u'.ID = u.ID → u'.Verified = true := by
  intro u' hu' hvis hid
  simp only [saveUser, List.mem_map] at hu'
  obtain ⟨u0, _, rfl⟩ := hu'
  by_cases hc : (u0.DeletedAt.isNone && decide (u0.ID = u.ID)) = true
  · simp [hc]
  · simp only [hc, if_false, Bool.false_eq_true] at hvis hid
    exact absurd (by simp [hvis, hid]) hc

theorem firstUser_of_mem (env : Env) (db : DB) (id : UUID) (u : User)
    (hfault : env.fault 1 = none) (hu : u ∈ db.users) (hvis : u.DeletedAt = none)
    (hid : u.ID = id) :
    ∃ u0, firstUser env db 1 id = some u0 ∧ u0.ID = id ∧
      db.users.find? (fun u => u.DeletedAt.isNone && decide (u.ID = id)) = some u0 := by
  unfold firstUser
  simp only [hfault]
  cases hf : db.users.find? (fun u => u.DeletedAt.isNone && decide (u.ID = id)) with
  | none =>
    rw [List.find?_eq_none] at hf
    have := hf u hu
    simp [hvis, hid] at this
  | some u0 =>
    have h0 := List.find?_some hf
    simp only [Bool.and_eq_true, decide_eq_true_eq] at h0
    exact ⟨u0, rfl, h0.2, rfl⟩

/-- Single use when no store call fails: let `v` be a visible stored
verification with a nonzero key whose code no other visible verification has,
not yet expired, bound to a visible user, and let no store call fail.  The
first `verifyHandler` call with `v`'s code
ends without an error response (status 200), leaves every visible user with
the bound ID verified, and leaves no visible verification with that code.
Every later call with the same code, in any environment, answers 404 "Invalid
verification code" and leaves the store as it is.  For any store and code, a
code that no visible verification has is answered 404 with the store
unchanged. -/
theorem verify_single_use (env : Env) (db : DB) (v : Verification) (u : User)
    (hmem : v ∈ db.verifications) (hvisible : v.DeletedAt = none) (hkey : v.ID ≠ 0)
    (hunique : ∀ w ∈ db.verifications, w.DeletedAt = none →
      w.VerificationCode = v.VerificationCode → w = v)
    (hunexpired : env.now 0 ≤ v.ExpiresAt)
    (hu : u ∈ db.users) (huvisible : u.DeletedAt = none) (hbound : u.ID = v.UserID)
    (hstore : ∀ k, env.fault k = none) :
    ((verifyHandler env db v.VerificationCode).resp = Resp.none ∧
        (verifyHandler env db v.VerificationCode).resp.status = 200 ∧
        (∃ u' ∈ (verifyHandler env db v.VerificationCode).db.users,
          u'.DeletedAt = none ∧ u'.ID = v.UserID ∧ u'.Verified = true) ∧
        (∀ u' ∈ (verifyHandler env db v.VerificationCode).db.users,
          u'.DeletedAt = none → u'.ID = v.UserID → u'.Verified = true) ∧
        (∀ w ∈ (verifyHandler env db v.VerificationCode).db.verifications,
          w.DeletedAt = none → w.VerificationCode ≠ v.VerificationCode)) ∧
      (∀ envs : List Env,
        (verifyCalls v.VerificationCode envs (verifyHandler env db v.VerificationCode).db).1 =
            (verifyHandler env db v.VerificationCode).db ∧
          ∀ r ∈ (verifyCalls v.VerificationCode envs
              (verifyHandler env db v.VerificationCode).db).2,
            r = Resp.json 404 (Body.err "Invalid verification code")) ∧
      (∀ (env' : Env) (db' : DB) (code : String),
        (∀ w ∈ db'.verifications, w.DeletedAt = none → w.VerificationCode ≠ code) →
          verifyHandler env' db' code =
            ⟨Resp.json 404 (Body.err "Invalid verification code"), db',
              [Call.FindVerification], false⟩) := by
  have hfind := findVerification_unique env db v hmem hvisible hunique (hstore 0)
  obtain ⟨u0, hfirst, hid0, hfind0⟩ :=
    firstUser_of_mem env db v.UserID u (hstore 1) hu huvisible hbound
  have hout : verifyHandler env db v.VerificationCode =
      ⟨Resp.none, deleteVerification env (saveUser env db { u0 with Verified := true }) v,
        [Call.FindVerification, Call.FirstUser, Call.SaveUser, Call.DeleteVerification],
        false⟩ := by
    unfold verifyHandler
    simp only [hfind, hkey, if_false, not_lt.2 hunexpired, gt_iff_lt, hfirst, hstore]
  have hconsumed : ∀ w ∈ (verifyHandler env db v.VerificationCode).db.verifications,
      w.DeletedAt = none → w.VerificationCode ≠ v.VerificationCode := by
    rw [hout]
    exact deleteVerification_consumed env (saveUser env db { u0 with Verified := true }) v hunique
  refine ⟨⟨?_, ?_, ?_, ?_, hconsumed⟩, ?_, ?_⟩
  · rw [hout]
  · rw [hout]; rfl
  · rw [hout]
    refine ⟨{ u0 with Verified := true, UpdatedAt := env.dbNow }, ?_, ?_, hid0, rfl⟩
    · have h0 := List.find?_some hfind0
      simp only [Bool.and_eq_true, decide_eq_true_eq] at h0
      simp only [deleteVerification, saveUser, List.mem_map]
      exact ⟨u0, List.mem_of_find?_eq_some hfind0, by simp [h0.1, hid0]⟩
    · have h0 := List.find?_some hfind0
      simp only [Bool.and_eq_true, Option.isNone_iff_eq_none, decide_eq_true_eq] at h0
      exact h0.1
  · rw [hout]
    intro u' hu' hvis hid
    exact saveUser_all_verified env db u0 u' hu' hvis (by rw [hid, hid0])
  · intro envs
    exact verifyCalls_unknown_code _ envs _ hconsumed
  · intro env' db' code hnone
    exact verify_unknown_code env' db' code hnone

/-- An instance of `verify_single_use`: the verification issued by the signup
of `demoSignup`, presented at once. -/
theorem verify_single_use_witness :
    demoVerification ∈ (signupHandler demoEnv emptyStore (.ok demoSignup)).db.verifications ∧
      demoVerification.DeletedAt = none ∧ demoVerification.ID ≠ 0 ∧
      (∀ w ∈ (signupHandler demoEnv emptyStore (.ok demoSignup)).db.verifications,
        w.DeletedAt = none → w.VerificationCode = demoVerification.VerificationCode →
          w = demoVerification) ∧
      demoEnv.now 0 ≤ demoVerification.ExpiresAt ∧
      demoUser ∈ (signupHandler demoEnv emptyStore (.ok demoSignup)).db.users ∧
      demoUser.DeletedAt = none ∧ demoUser.ID = demoVerification.UserID ∧
      (∀ k, demoEnv.fault k = none) ∧
      (verifyHandler demoEnv (signupHandler demoEnv emptyStore (.ok demoSignup)).db
          demoVerification.VerificationCode).resp = Resp.none ∧
      (verifyCalls demoVerification.VerificationCode [demoEnv, faultyEnv 0]
          (verifyHandler demoEnv (signupHandler demoEnv emptyStore (.ok demoSignup)).db
            demoVerification.VerificationCode).db).2 =
        [Resp.json 404 (Body.err "Invalid verification code"),
          Resp.json 404 (Body.err "Invalid verification code")] :=
  have hdb : (signupHandler demoEnv emptyStore (.ok demoSignup)).db.verifications =
      [demoVerification] := by decide
  have hmem : demoVerification ∈
      (signupHandler demoEnv emptyStore (.ok demoSignup)).db.verifications := by
    rw [hdb]; exact List.mem_singleton.2 rfl
  have huniq : ∀ w ∈ (signupHandler demoEnv emptyStore (.ok demoSignup)).db.verifications,
      w.DeletedAt = none → w.VerificationCode = demoVerification.VerificationCode →
        w = demoVerification := by
    rw [hdb]; intro w hw _ _; exact List.mem_singleton.1 hw
  have husers : demoUser ∈ (signupHandler demoEnv emptyStore (.ok demoSignup)).db.users := by
    decide
  have h := verify_single_use demoEnv (signupHandler demoEnv emptyStore (.ok demoSignup)).db
    demoVerification demoUser hmem rfl (by decide) huniq (by decide) husers rfl rfl
    (fun _ => rfl)
  ⟨hmem, rfl, by decide, huniq, by decide, husers, rfl, rfl, fun _ => rfl, h.1.1, by decide⟩

/-- C11, the code at failing inputs: the store holds the user and the
verification that the signup of `demoSignup` created, and the code is
presented before expiry.  `verifyHandler` drops the errors of `DB.Save` and
`DB.Delete`.  When the delete fails the first call ends with status 200 and the
verification stays visible, so a second call with the same code is accepted
again (statuses 200, 200, 404) instead of being answered 404.  When the save
fails the call ends with status 200 too, the user is still unverified and the
verification is soft-deleted, so every later call is answered 404. -/
theorem verify_dropped_errors_break_single_use :
    (signupHandler demoEnv emptyStore (.ok demoSignup)).db.users = [demoUser] ∧
      (signupHandler demoEnv emptyStore (.ok demoSignup)).db.verifications =
        [demoVerification] ∧
      demoEnv.now 0 ≤ demoVerification.ExpiresAt ∧
      ((verifyCalls demoVerification.VerificationCode
            [failingEnv 3 "connection reset", demoEnv, demoEnv]
            (signupHandler demoEnv emptyStore (.ok demoSignup)).db).2).map Resp.status =
        [200, 200, 404] ∧
      (verifyHandler (failingEnv 3 "connection reset")
          (signupHandler demoEnv emptyStore (.ok demoSignup)).db
          demoVerification.VerificationCode).db.verifications = [demoVerification] ∧
      (verifyHandler (failingEnv 2 "connection reset")
          (signupHandler demoEnv emptyStore (.ok demoSignup)).db
          demoVerification.VerificationCode).resp.status = 200 ∧
      (verifyHandler (failingEnv 2 "connection reset")
          (signupHandler demoEnv emptyStore (.ok demoSignup)).db
          demoVerification.VerificationCode).db.users = [demoUser] ∧
      demoUser.Verified = false ∧
      (verifyHandler (failingEnv 2 "connection reset")
          (signupHandler demoEnv emptyStore (.ok demoSignup)).db
          demoVerification.VerificationCode).db.verifications =
        [{ demoVerification with DeletedAt := some 1000 }] ∧
      (verifyHandler demoEnv
          (verifyHandler (failingEnv 2 "connection reset")
            (signupHandler demoEnv emptyStore (.ok demoSignup)).db
            demoVerification.VerificationCode).db
          demoVerification.VerificationCode).resp =
        Resp.json 404 (Body.err "Invalid verification code") := by
  refine ⟨by decide, by decide, by decide, by decide, by decide, by decide, by decide, rfl,
    by decide, by decide⟩

/-! ## Signing in -/

theorem findUser_none (env : Env) (db : DB) (k : Nat) (cond : User → Bool)
    (hnone : ∀ u ∈ db.users, u.DeletedAt = none → cond u = false) :
    findUser env db k cond = zeroUser := by
  unfold findUser
  cases env.fault k with
  | some e => rfl
  | none =>
    have : db.users.find? (fun u => u.DeletedAt.isNone && cond u) = none := by
      rw [List.find?_eq_none]
      intro u hu hp
      simp only [Bool.and_eq_true, Option.isNone_iff_eq_none] at hp
      rw [hnone u hu hp.1] at hp
      exact absurd hp.2 (by decide)
    simp only [this, Option.getD_none]

theorem findUser_some (env : Env) (db : DB) (k : Nat) (cond : User → Bool) (u : User)
    (hfault : env.fault k = none)
    (hfind : db.users.find? (fun u => u.DeletedAt.isNone && cond u) = some u) :
    findUser env db k cond = u := by
  unfold findUser
  simp only [hfault, hfind, Option.getD_some]

/-- C12: for a bound signin request, `signinHandler` answers 403 "Wrong
credentials" when no visible user has the email.  When the lookup succeeds and
finds the user `u` (with a non-nil ID): it answers 403 "Account not verified"
if the flag is on and `u` is not verified, whatever the password check would
say; otherwise 403 "Wrong credentials" if the check does not return true (a
mismatch or an error); otherwise 200 with the profile.  The two 403 responses
differ, and the session holds `u.Username` after a success and is unchanged in
every other case. -/
theorem signin_outcomes (env : Env) (db : DB) (session : Option String)
    (loginRequest : SignupRequest) :
    ((∀ u ∈ db.users, u.DeletedAt = none → u.Email ≠ loginRequest.Email) →
        (signinHandler env db session (.ok loginRequest)).out.resp =
            Resp.json 403 (Body.err "Wrong credentials") ∧
          (signinHandler env db session (.ok loginRequest)).session = session) ∧
      (∀ u : User, env.fault 0 = none →
        db.users.find? (fun u => u.DeletedAt.isNone && decide (u.Email = loginRequest.Email)) =
          some u →
        u.ID ≠ uuidNil →
        ((env.userVerification = true ∧ u.Verified = false) →
            (signinHandler env db session (.ok loginRequest)).out.resp =
                Resp.json 403 (Body.err "Account not verified") ∧
              (signinHandler env db session (.ok loginRequest)).session = session) ∧
          (¬(env.userVerification = true ∧ u.Verified = false) →
            env.checkPassword loginRequest.Password u.Password ≠ .ok true →
            (signinHandler env db session (.ok loginRequest)).out.resp =
                Resp.json 403 (Body.err "Wrong credentials") ∧
              (signinHandler env db session (.ok loginRequest)).session = session) ∧
          (¬(env.userVerification = true ∧ u.Verified = false) →
            env.checkPassword loginRequest.Password u.Password = .ok true →
            (signinHandler env db session (.ok loginRequest)).out.resp =
                Resp.json 200 (Body.profile u.Username u.Email "Signed in successfully") ∧
              (signinHandler env db session (.ok loginRequest)).session = some u.Username)) ∧
      Resp.json 403 (Body.err "Account not verified") ≠
        Resp.json 403 (Body.err "Wrong credentials") := by
  refine ⟨?_, ?_, by decide⟩
  · intro hnone
    have hz := findUser_none env db 0 (fun u => decide (u.Email = loginRequest.Email))
      (fun u hu hv => by simpa using hnone u hu hv)
    unfold signinHandler
    simp [hz, zeroUser]
  · intro u hfault hfind hid
    have hu := findUser_some env db 0 (fun u => decide (u.Email = loginRequest.Email)) u hfault
      hfind
    refine ⟨?_, ?_, ?_⟩
    · intro hnv
      unfold signinHandler
      simp [hu, hid, hnv]
    · intro hnv hpw
      unfold signinHandler
      simp only [hu, hid, if_false, hnv]
      cases hc : env.checkPassword loginRequest.Password u.Password with
      | error e => simp
      | ok b =>
        cases b with
        | false => simp
        | true => exact absurd hc hpw
    · intro hnv hpw
      unfold signinHandler
      simp [hu, hid, hnv, hpw]

/-- Witness of C12: with the flag on, the verified user signs in with the right
password and the session takes the username; the unverified user is refused
as not verified even with the right password. -/
theorem signin_outcomes_witness :
    demoEnv.fault 0 = none ∧
      (usersStore [verifiedUser]).users.find?
          (fun u => u.DeletedAt.isNone && decide (u.Email = (demoSignin "hunter2").Email)) =
        some verifiedUser ∧
      verifiedUser.ID ≠ uuidNil ∧
      ¬(demoEnv.userVerification = true ∧ verifiedUser.Verified = false) ∧
      demoEnv.checkPassword (demoSignin "hunter2").Password verifiedUser.Password = .ok true ∧
      ((signinHandler demoEnv (usersStore [verifiedUser]) none
            (.ok (demoSignin "hunter2"))).out.resp =
          Resp.json 200 (Body.profile verifiedUser.Username verifiedUser.Email
            "Signed in successfully") ∧
        (signinHandler demoEnv (usersStore [verifiedUser]) none
            (.ok (demoSignin "hunter2"))).session = some verifiedUser.Username) ∧
      ((signinHandler demoEnv (usersStore [demoUser]) none
            (.ok (demoSignin "hunter2"))).out.resp =
          Resp.json 403 (Body.err "Account not verified") ∧
        (signinHandler demoEnv (usersStore [demoUser]) none
            (.ok (demoSignin "hunter2"))).session = none) :=
  ⟨rfl, rfl, by decide, by decide, rfl,
    ((signin_outcomes demoEnv (usersStore [verifiedUser]) none (demoSignin "hunter2")).2.1
      verifiedUser rfl rfl (by decide)).2.2 (by decide) rfl,
    ((signin_outcomes demoEnv (usersStore [demoUser]) none (demoSignin "hunter2")).2.1
      demoUser rfl rfl (by decide)).1 (by decide)⟩

/-- C13 as stated fails: with the flag on, a wrong password for the email of an
unverified user is answered "Account not verified", while the same request
when no user has the email is answered "Wrong credentials". -/
theorem signin_unverified_reveals_account :
    demoEnv.userVerification = true ∧
      emptyStore.users = [] ∧
      demoUser ∈ (usersStore [demoUser]).users ∧
      demoUser.Email = (demoSignin "wrong").Email ∧
      demoEnv.checkPassword (demoSignin "wrong").Password demoUser.Password = .ok false ∧
      (signinHandler demoEnv emptyStore none (.ok (demoSignin "wrong"))).out.resp =
        Resp.json 403 (Body.err "Wrong credentials") ∧
      (signinHandler demoEnv (usersStore [demoUser]) none (.ok (demoSignin "wrong"))).out.resp =
        Resp.json 403 (Body.err "Account not verified") ∧
      (signinHandler demoEnv emptyStore none (.ok (demoSignin "wrong"))).out.resp ≠
        (signinHandler demoEnv (usersStore [demoUser]) none (.ok (demoSignin "wrong"))).out.resp :=
  ⟨rfl, rfl, by decide, rfl, rfl, by decide, by decide, by decide⟩

/-- C13, amended: the same bound signin request is answered identically, and
leaves the session unchanged, on a store where no visible user has the email
and on a store where the lookup by that email finds a user whose credential
the password does not verify against, provided that user is verified or the
flag is off. -/
theorem signin_hides_unknown_email (env : Env) (db₁ db₂ : DB) (session : Option String)
    (loginRequest : SignupRequest) (u : User)
    (hnone : ∀ u ∈ db₁.users, u.DeletedAt = none → u.Email ≠ loginRequest.Email)
    (hfound : db₂.users.find?
      (fun u => u.DeletedAt.isNone && decide (u.Email = loginRequest.Email)) = some u)
    (hgate : env.userVerification = false ∨ u.Verified = true)
    (hmismatch : env.checkPassword loginRequest.Password u.Password ≠ .ok true) :
    (signinHandler env db₁ session (.ok loginRequest)).out.resp =
        (signinHandler env db₂ session (.ok loginRequest)).out.resp ∧
      (signinHandler env db₂ session (.ok loginRequest)).out.resp =
        Resp.json 403 (Body.err "Wrong credentials") ∧
      (signinHandler env db₁ session (.ok loginRequest)).session = session ∧
      (signinHandler env db₂ session (.ok loginRequest)).session = session := by
  have hz := findUser_none env db₁ 0 (fun u => decide (u.Email = loginRequest.Email))
    (fun u hu hv => by simpa using hnone u hu hv)
  have h1 : signinHandler env db₁ session (.ok loginRequest) =
      ⟨⟨Resp.json 403 (Body.err "Wrong credentials"), db₁, [Call.FindUserByEmail], false⟩,
        session⟩ := by
    unfold signinHandler
    simp [hz, zeroUser]
  have h2 : (signinHandler env db₂ session (.ok loginRequest)).out.resp =
        Resp.json 403 (Body.err "Wrong credentials") ∧
      (signinHandler env db₂ session (.ok loginRequest)).session = session := by
    unfold signinHandler
    cases hf : env.fault 0 with
    | some e => simp [findUser, hf, zeroUser]
    | none =>
      have hu := findUser_some env db₂ 0 (fun u => decide (u.Email = loginRequest.Email)) u hf
        hfound
      simp only [hu]
      by_cases hid : u.ID = uuidNil
      · simp [hid]
      · have hnv : ¬(env.userVerification = true ∧ u.Verified = false) := by
          rcases hgate with h | h <;> simp [h]
        simp only [hid, if_false, hnv]
        cases hc : env.checkPassword loginRequest.Password u.Password with
        | error e => simp
        | ok b =>
          cases b with
          | false => simp
          | true => exact absurd hc hmismatch
  rw [h1]
  exact ⟨h2.1.symm, h2.1, rfl, h2.2⟩

/-- Witness of C13 amended: a wrong password for the verified user against the
same request on the empty store. -/
theorem signin_hides_unknown_email_witness :
    (∀ u ∈ emptyStore.users, u.DeletedAt = none → u.Email ≠ (demoSignin "wrong").Email) ∧
      (usersStore [verifiedUser]).users.find?
          (fun u => u.DeletedAt.isNone && decide (u.Email = (demoSignin "wrong").Email)) =
        some verifiedUser ∧
      (demoEnv.userVerification = false ∨ verifiedUser.Verified = true) ∧
      demoEnv.checkPassword (demoSignin "wrong").Password verifiedUser.Password ≠ .ok true ∧
      ((signinHandler demoEnv emptyStore none (.ok (demoSignin "wrong"))).out.resp =
          (signinHandler demoEnv (usersStore [verifiedUser]) none
            (.ok (demoSignin "wrong"))).out.resp ∧
        (signinHandler demoEnv (usersStore [verifiedUser]) none
            (.ok (demoSignin "wrong"))).out.resp =
          Resp.json 403 (Body.err "Wrong credentials") ∧
        (signinHandler demoEnv emptyStore none (.ok (demoSignin "wrong"))).session = none ∧
        (signinHandler demoEnv (usersStore [verifiedUser]) none
            (.ok (demoSignin "wrong"))).session = none) :=
  have hpw : demoEnv.checkPassword (demoSignin "wrong").Password verifiedUser.Password ≠
      .ok true := by
    have h : demoEnv.checkPassword (demoSignin "wrong").Password verifiedUser.Password =
        .ok false := rfl
    rw [h]
    intro hc
    cases hc
  ⟨by decide, rfl, Or.inr rfl, hpw,
    signin_hides_unknown_email demoEnv emptyStore (usersStore [verifiedUser]) none
      (demoSignin "wrong") verifiedUser (by decide) rfl (Or.inr rfl) hpw⟩

/-! ## Forms and the session -/

/-- C14: with no username in the session, `createFormHandler`, whatever the
result of binding the body, and `listFormsHandler` redirect to the login route
with status 303, make no store call and leave the store as it was; in
particular the answer is neither a 400 nor a body carrying form data. -/
theorem no_session_redirects (env : Env) (db : DB) (body : Except String Form) :
    createFormHandler env db none body =
        ⟨Resp.redirect 303 "/api/account/login", db, [], false⟩ ∧
      listFormsHandler env db none =
        ⟨Resp.redirect 303 "/api/account/login", db, [], false⟩ ∧
      (createFormHandler env db none body).resp.status ≠ 400 ∧
      (listFormsHandler env db none).resp.status ≠ 400 :=
  ⟨rfl, rfl, by simp [createFormHandler, Resp.status], by simp [listFormsHandler, Resp.status]⟩

/-- C17: in `createFormHandler` the creator the body carries is never used: two
bound bodies that differ only in `CreatorUserID` give the same outcome.  When
the call answers 201, the lookup by the session's username found a user `u`,
exactly one row was appended to the forms table, and that row and the returned
form have `CreatorUserID` equal to the string form of `u.ID`.  When no visible
user has the session's username the answer is 500 "User not found", `CreateForm`
is not called and the store is unchanged. -/
theorem createForm_creator_from_session (env : Env) (db : DB) (username : String)
    (newForm : Form) :
    (∀ creator : String,
        createFormHandler env db (some username)
            (.ok { newForm with CreatorUserID := creator }) =
          createFormHandler env db (some username) (.ok newForm)) ∧
      ((createFormHandler env db (some username) (.ok newForm)).resp.status = 201 →
        ∃ (u : User) (row created : Form),
          db.users.find? (fun u => u.DeletedAt.isNone && decide (u.Username = username)) =
              some u ∧
            (createFormHandler env db (some username) (.ok newForm)).db.forms =
              db.forms ++ [row] ∧
            row.CreatorUserID = env.uuidString u.ID ∧
            (createFormHandler env db (some username) (.ok newForm)).resp =
              Resp.json 201 (Body.form created) ∧
            created.CreatorUserID = env.uuidString u.ID) ∧
      ((∀ u ∈ db.users, u.DeletedAt = none → u.Username ≠ username) →
        createFormHandler env db (some username) (.ok newForm) =
          ⟨Resp.json 500 (Body.err "User not found"), db, [Call.FindUserByUsername], false⟩) := by
  refine ⟨fun creator => rfl, ?_, ?_⟩
  · intro hstatus
    unfold createFormHandler at hstatus ⊢
    simp only at hstatus ⊢
    by_cases hid : (findUser env db 0 (fun u => decide (u.Username = username))).ID = uuidNil
    · simp [hid, Resp.status] at hstatus
    · simp only [hid, if_false] at hstatus ⊢
      cases hf : env.fault 0 with
      | some e => exact absurd (by simp [findUser, hf, zeroUser]) hid
      | none =>
        cases hfind : db.users.find?
            (fun u => u.DeletedAt.isNone && decide (u.Username = username)) with
        | none => exact absurd (by simp [findUser, hf, hfind, zeroUser]) hid
        | some u =>
          have hu : findUser env db 0 (fun u => decide (u.Username = username)) = u := by
            simp [findUser, hf, hfind]
          simp only [hu] at hstatus ⊢
          cases hc : env.fault 1 with
          | some e => simp [CreateForm, hc, Resp.status] at hstatus
          | none =>
            simp only [CreateForm, hc]
            exact ⟨u, _, _, rfl, rfl, rfl, rfl, rfl⟩
  · intro hnone
    have hz := findUser_none env db 0 (fun u => decide (u.Username = username))
      (fun u hu hv => by simpa using hnone u hu hv)
    unfold createFormHandler
    simp [hz, zeroUser]

/-- Witness of C17: signed in as "ann", a body claiming the creator "mallory"
stores a form whose creator is the string form of the ID of "ann". -/
theorem createForm_creator_from_session_witness :
    (createFormHandler demoEnv (usersStore [verifiedUser]) (some "ann")
          (.ok (demoFormBody "mallory"))).resp.status = 201 ∧
      (createFormHandler demoEnv (usersStore [verifiedUser]) (some "ann")
            (.ok (demoFormBody "mallory"))).db.forms.map (fun f => f.CreatorUserID) =
        [demoEnv.uuidString verifiedUser.ID] ∧
      ∃ (u : User) (row created : Form),
        (usersStore [verifiedUser]).users.find?
            (fun u => u.DeletedAt.isNone && decide (u.Username = "ann")) = some u ∧
          (createFormHandler demoEnv (usersStore [verifiedUser]) (some "ann")
              (.ok (demoFormBody "mallory"))).db.forms =
            (usersStore [verifiedUser]).forms ++ [row] ∧
          row.CreatorUserID = demoEnv.uuidString u.ID ∧
          (createFormHandler demoEnv (usersStore [verifiedUser]) (some "ann")
              (.ok (demoFormBody "mallory"))).resp = Resp.json 201 (Body.form created) ∧
          created.CreatorUserID = demoEnv.uuidString u.ID :=
  ⟨by decide, by decide,
    (createForm_creator_from_session demoEnv (usersStore [verifiedUser]) "ann"
      (demoFormBody "mallory")).2.1 (by decide)⟩

/-! ## Order of answers and questions -/

theorem submit_decision_iff (env : Env) (db : DB) (formIDStr : String) (targetForm : Form)
    (newResponse : Response)
    (hform : GetFormByID env db 0 formIDStr = .ok (some targetForm))
    (hnodup : (targetForm.Questions.map (fun q => q.ID)).Nodup) :
    (Call.CreateResponse ∈ (submitResponseHandler env db formIDStr (.ok newResponse)).trace ↔
        ValidSubmission targetForm.Questions newResponse.Answers) ∧
      (env.fault 1 = none →
        ((submitResponseHandler env db formIDStr (.ok newResponse)).resp.status = 201 ↔
          ValidSubmission targetForm.Questions newResponse.Answers)) := by
  have hparse := (GetFormByID_some hform).2.1
  rw [← checks_pass_iff env targetForm.Questions newResponse.Answers hnodup]
  unfold submitResponseHandler
  simp only [hparse, hform]
  cases h1 : checkAnswers env (buildQuestionMap targetForm.Questions) newResponse.Answers [] with
  | error r =>
    obtain ⟨msg, rfl⟩ := checkAnswers_error _ _ _ _ _ h1
    simp [Resp.status]
  | ok answered =>
    cases h2 : checkRequired targetForm.Questions answered with
    | some r =>
      obtain ⟨msg, rfl⟩ := checkRequired_some _ _ _ h2
      simp [Resp.status, h2]
    | none =>
      constructor
      · cases h3 : CreateResponse env db 1 { newResponse with FormID := targetForm.ID } with
        | error e => simp [h2]
        | ok p => simp [h2]
      · intro hf
        simp [CreateResponse, hf, Resp.status, h2]

theorem ValidSubmission_of_mem_iff {qs qs' : List Question} {answers answers' : List Answer}
    (hq : ∀ q, q ∈ qs ↔ q ∈ qs') (ha : ∀ a, a ∈ answers ↔ a ∈ answers') :
    ValidSubmission qs answers ↔ ValidSubmission qs' answers' := by
  unfold ValidSubmission
  simp only [hq, ha]

/-- C16: for two runs of `submitResponseHandler` on forms whose question lists
are permutations of each other, with distinct question IDs, and on submissions
whose answer lists are permutations of each other, `CreateResponse` is reached
in one run exactly when it is in the other, and, the store call succeeding, one
answers 201 exactly when the other does.  If a submission reaches
`CreateResponse`, so does any submission made of its answers and of further
copies of some of them, in any order. -/
theorem submit_decision_order_independent (env : Env) (db db' : DB)
    (formIDStr formIDStr' : String) (targetForm targetForm' : Form)
    (newResponse newResponse' : Response)
    (hform : GetFormByID env db 0 formIDStr = .ok (some targetForm))
    (hform' : GetFormByID env db' 0 formIDStr' = .ok (some targetForm'))
    (hnodup : (targetForm.Questions.map (fun q => q.ID)).Nodup)
    (hquestions : targetForm.Questions.Perm targetForm'.Questions)
    (hanswers : newResponse.Answers.Perm newResponse'.Answers) :
    (Call.CreateResponse ∈ (submitResponseHandler env db formIDStr (.ok newResponse)).trace ↔
        Call.CreateResponse ∈
          (submitResponseHandler env db' formIDStr' (.ok newResponse')).trace) ∧
      (env.fault 1 = none →
        ((submitResponseHandler env db formIDStr (.ok newResponse)).resp.status = 201 ↔
          (submitResponseHandler env db' formIDStr' (.ok newResponse')).resp.status = 201)) ∧
      (∀ (extra : List Answer) (repeated : Response),
        (∀ a ∈ extra, a ∈ newResponse.Answers) →
        repeated.Answers.Perm (newResponse.Answers ++ extra) →
        Call.CreateResponse ∈
          (submitResponseHandler env db formIDStr (.ok newResponse)).trace →
        Call.CreateResponse ∈
          (submitResponseHandler env db formIDStr (.ok repeated)).trace) := by
  have hnodup' : (targetForm'.Questions.map (fun q => q.ID)).Nodup :=
    (List.Perm.nodup_iff (hquestions.map _)).1 hnodup
  have hvalid : ValidSubmission targetForm.Questions newResponse.Answers ↔
      ValidSubmission targetForm'.Questions newResponse'.Answers :=
    ValidSubmission_of_mem_iff (fun _ => hquestions.mem_iff) (fun _ => hanswers.mem_iff)
  have h := submit_decision_iff env db formIDStr targetForm newResponse hform hnodup
  have h' := submit_decision_iff env db' formIDStr' targetForm' newResponse' hform' hnodup'
  refine ⟨?_, ?_, ?_⟩
  · rw [h.1, h'.1, hvalid]
  · intro hf
    rw [h.2 hf, h'.2 hf, hvalid]
  · intro extra repeated hextra hperm hacc
    have hr := submit_decision_iff env db formIDStr targetForm repeated hform hnodup
    rw [hr.1]
    rw [h.1] at hacc
    refine (ValidSubmission_of_mem_iff (fun _ => Iff.rfl) (fun a => ?_)).1 hacc
    rw [hperm.mem_iff, List.mem_append]
    exact ⟨fun ha => Or.inl ha, fun ha => ha.elim id (hextra a)⟩

/-- Witness of C16: form 7 with its two questions stored in either order, and
the answers to Q1 and Q2 sent in either order. -/
theorem submit_decision_order_independent_witness :
    GetFormByID demoEnv (demoStore demoQuestions) 0 "F7" =
        .ok (some { demoFormRow with Questions := demoQuestions }) ∧
      GetFormByID demoEnv (demoStore demoQuestions.reverse) 0 "F7" =
        .ok (some { demoFormRow with Questions := demoQuestions.reverse }) ∧
      (demoQuestions.map (fun q => q.ID)).Nodup ∧
      demoQuestions.Perm demoQuestions.reverse ∧
      [demoAnswer 1 "42", demoAnswer 2 ""].Perm [demoAnswer 2 "", demoAnswer 1 "42"] ∧
      (Call.CreateResponse ∈ (submitResponseHandler demoEnv (demoStore demoQuestions) "F7"
            (.ok (demoResponse [demoAnswer 1 "42", demoAnswer 2 ""]))).trace ↔
        Call.CreateResponse ∈
          (submitResponseHandler demoEnv (demoStore demoQuestions.reverse) "F7"
            (.ok (demoResponse [demoAnswer 2 "", demoAnswer 1 "42"]))).trace) ∧
      Call.CreateResponse ∈ (submitResponseHandler demoEnv (demoStore demoQuestions) "F7"
          (.ok (demoResponse [demoAnswer 1 "42", demoAnswer 2 ""]))).trace :=
  ⟨rfl, rfl, by decide, (List.reverse_perm demoQuestions).symm, List.Perm.swap _ _ _,
    (submit_decision_order_independent demoEnv (demoStore demoQuestions)
      (demoStore demoQuestions.reverse) "F7" "F7"
      { demoFormRow with Questions := demoQuestions }
      { demoFormRow with Questions := demoQuestions.reverse }
      (demoResponse [demoAnswer 1 "42", demoAnswer 2 ""])
      (demoResponse [demoAnswer 2 "", demoAnswer 1 "42"]) rfl rfl (by decide)
      (List.reverse_perm demoQuestions).symm (List.Perm.swap _ _ _)).1,
    by decide⟩

/-! ## Failures of the store -/

/-- C15, the code at failing inputs.  In `signupHandler` the error of the
user's creation is put in the response body, so two error values give two
different responses.  In `setQuestionsHandler` a failed `GetFormByID` is
answered 404 "Form not found", and a failed delete ends the handler after the
rollback with nothing written (status 200). -/
theorem store_failure_not_always_generic_500 :
    (signupHandler (failingEnv 4 "duplicate key") emptyStore (.ok demoSignup)).resp =
        Resp.json 500 (Body.errValue "duplicate key") ∧
      (signupHandler (failingEnv 4 "connection reset") emptyStore (.ok demoSignup)).resp =
        Resp.json 500 (Body.errValue "connection reset") ∧
      (signupHandler (failingEnv 4 "duplicate key") emptyStore (.ok demoSignup)).resp ≠
        (signupHandler (failingEnv 4 "connection reset") emptyStore (.ok demoSignup)).resp ∧
      setQuestionsHandler (failingEnv 0 "connection reset") (demoStore demoQuestions) "F7"
          (.ok [demoRequest "New"]) =
        ⟨Resp.json 404 (Body.err "Form not found"), demoStore demoQuestions,
          [Call.GetFormByID], false⟩ ∧
      setQuestionsHandler (failingEnv 2 "connection reset") (demoStore demoQuestions) "F7"
          (.ok [demoRequest "New"]) =
        ⟨Resp.none, demoStore demoQuestions,
          [Call.GetFormByID, Call.Begin, Call.DeleteQuestions, Call.Rollback], false⟩ ∧
      (setQuestionsHandler (failingEnv 2 "connection reset") (demoStore demoQuestions) "F7"
          (.ok [demoRequest "New"])).resp.status = 200 := by
  refine ⟨by decide, by decide, by decide, by decide, by decide, by decide⟩

/-- Store failures whose error the handler drops or only logs: in
`signupHandler` a failure to create the verification still gives 201, and in
`verifyHandler` a failed lookup of the verification is answered 404. -/
theorem store_failure_dropped :
    (signupHandler (failingEnv 5 "connection reset") emptyStore
          (.ok demoSignup)).resp.status = 201 ∧
      (verifyHandler (failingEnv 0 "connection reset")
          (signupHandler demoEnv emptyStore (.ok demoSignup)).db
          demoVerification.VerificationCode).resp.status = 404 := by
  refine ⟨by decide, by decide⟩

/-- The store failures that are answered as the specification asks: a failure
of one of the following calls is answered 500 with a fixed message, whatever
the error value, and leaves the store as it was.  These calls are `CreateForm` in `createFormHandler`,
`GetAllFormsByUser` in `listFormsHandler`, `GetFormByID` in `getFormHandler` and
`submitResponseHandler`, `CreateResponse` in `submitResponseHandler`,
`GetResponsesByFormID` in `getFormResponsesHandler`, the insert in
`setQuestionsHandler` and the fetch of the user in `verifyHandler`.  In
`signupHandler` a failure to create the verification is not reported: the
answer is 201 with the created user. -/
theorem checked_store_failure_generic_500 :
    (∀ (env : Env) (db : DB) (session : Option String) (body : Except String Form)
        (e : String), env.fault 1 = some e →
        Call.CreateForm ∈ (createFormHandler env db session body).trace →
        (createFormHandler env db session body).resp =
            Resp.json 500 (Body.err "Could not save form") ∧
          (createFormHandler env db session body).db = db) ∧
      (∀ (env : Env) (db : DB) (session : Option String) (e : String), env.fault 1 = some e →
        Call.GetAllFormsByUser ∈ (listFormsHandler env db session).trace →
        (listFormsHandler env db session).resp =
            Resp.json 500 (Body.err "Error retrieving forms") ∧
          (listFormsHandler env db session).db = db) ∧
      (∀ (env : Env) (db : DB) (formID e : String), env.fault 0 = some e →
        getFormHandler env db formID =
          ⟨Resp.json 500 (Body.err "Error retrieving form"), db, [Call.GetFormByID], false⟩) ∧
      (∀ (env : Env) (db : DB) (formIDStr : String) (body : Except String Response)
        (e : String), env.fault 0 = some e →
        Call.GetFormByID ∈ (submitResponseHandler env db formIDStr body).trace →
        submitResponseHandler env db formIDStr body =
          ⟨Resp.json 500 (Body.err "Error retrieving form"), db, [Call.GetFormByID], false⟩) ∧
      (∀ (env : Env) (db : DB) (formIDStr : String) (body : Except String Response)
        (e : String), env.fault 1 = some e →
        Call.CreateResponse ∈ (submitResponseHandler env db formIDStr body).trace →
        (submitResponseHandler env db formIDStr body).resp =
            Resp.json 500 (Body.err "Could not save response") ∧
          (submitResponseHandler env db formIDStr body).db = db) ∧
      (∀ (env : Env) (db : DB) (formID e : String), env.fault 0 = some e →
        getFormResponsesHandler env db formID =
          ⟨Resp.json 500 (Body.err "Error retrieving responses"), db,
            [Call.GetResponsesByFormID], false⟩) ∧
      (∀ (env : Env) (db : DB) (formIDStr : String)
        (body : Except String (List QuestionRequest)) (e : String), env.fault 3 = some e →
        Call.CreateQuestions ∈ (setQuestionsHandler env db formIDStr body).trace →
        (setQuestionsHandler env db formIDStr body).resp =
            Resp.json 500 (Body.err "Could not save questions") ∧
          (setQuestionsHandler env db formIDStr body).db = db ∧
          Call.Rollback ∈ (setQuestionsHandler env db formIDStr body).trace) ∧
      (∀ (env : Env) (db : DB) (code e : String), env.fault 1 = some e →
        Call.FirstUser ∈ (verifyHandler env db code).trace →
        verifyHandler env db code =
          ⟨Resp.json 500 (Body.err "Failed to fetch user data"), db,
            [Call.FindVerification, Call.FirstUser], false⟩) ∧
      (∀ (env : Env) (db : DB) (body : Except String SignupRequest) (e : String),
        env.fault 5 = some e →
        Call.CreateVerification ∈ (signupHandler env db body).trace →
        (signupHandler env db body).resp.status = 201 ∧
          (signupHandler env db body).db.verifications = db.verifications) := by
  refine ⟨?_, ?_, ?_, ?_, ?_, ?_, ?_, ?_, ?_⟩
  · intro env db session body e hf hmem
    unfold createFormHandler at hmem ⊢
    cases session with
    | none => simp at hmem
    | some username =>
      cases body with
      | error msg => simp at hmem
      | ok newForm =>
        simp only at hmem ⊢
        split at hmem
        · simp at hmem
        · rename_i hid
          simp [hid, CreateForm, hf]
  · intro env db session e hf hmem
    unfold listFormsHandler at hmem ⊢
    cases session with
    | none => simp at hmem
    | some username =>
      simp only at hmem ⊢
      split at hmem
      · simp at hmem
      · rename_i hid
        simp [hid, GetAllFormsByUser, hf]
  · intro env db formID e hf
    simp [getFormHandler, GetFormByID, hf]
  · intro env db formIDStr body e hf hmem
    unfold submitResponseHandler at hmem ⊢
    cases hp : env.parseUUID formIDStr with
    | none => simp [hp] at hmem
    | some formID => simp [GetFormByID, hf]
  · intro env db formIDStr body e hf hmem
    unfold submitResponseHandler at hmem ⊢
    cases hp : env.parseUUID formIDStr with
    | none => simp [hp] at hmem
    | some formID =>
      simp only [hp] at hmem ⊢
      cases hg : GetFormByID env db 0 formIDStr with
      | error msg => simp [hg] at hmem
      | ok found =>
        cases found with
        | none => simp [hg] at hmem
        | some targetForm =>
          simp only [hg] at hmem ⊢
          cases body with
          | error msg => simp at hmem
          | ok newResponse =>
            simp only at hmem ⊢
            cases h1 : checkAnswers env (buildQuestionMap targetForm.Questions)
                newResponse.Answers [] with
            | error r => simp [h1] at hmem
            | ok answered =>
              simp only [h1] at hmem ⊢
              cases h2 : checkRequired targetForm.Questions answered with
              | some r => simp [h2] at hmem
              | none => simp [CreateResponse, hf]
  · intro env db formID e hf
    simp [getFormResponsesHandler, GetResponsesByFormID, hf]
  · intro env db formIDStr body e hf hmem
    unfold setQuestionsHandler at hmem ⊢
    cases hg : GetFormByID env db 0 formIDStr with
    | error msg => simp [hg] at hmem
    | ok foundForm =>
      simp only [hg] at hmem ⊢
      cases body with
      | error msg => simp at hmem
      | ok questionsRequest =>
        simp only at hmem ⊢
        split at hmem
        · simp at hmem
        · rename_i hlen
          simp only [hlen, if_false] at hmem ⊢
          cases hd : (env.fault 1).orElse (fun _ => env.fault 2) with
          | some msg => simp [hd] at hmem
          | none =>
            simp only [hd] at hmem ⊢
            cases hb : buildQuestions env foundForm questionsRequest 0 with
            | none => simp [hb] at hmem
            | some questions =>
              cases questions with
              | nil => simp [createQuestionsError]
              | cons q rest => simp [createQuestionsError, hf]
  · intro env db code e hf hmem
    unfold verifyHandler at hmem ⊢
    simp only at hmem ⊢
    split at hmem
    · simp at hmem
    · rename_i hkey
      split at hmem
      · simp at hmem
      · rename_i hexp
        simp [hkey, hexp, firstUser, hf]
  · intro env db body e hf hmem
    unfold signupHandler at hmem ⊢
    cases body with
    | error msg => simp at hmem
    | ok signupRequest =>
      simp only at hmem ⊢
      split at hmem
      · simp at hmem
      · rename_i hc1
        split at hmem
        · simp at hmem
        · rename_i hc2
          simp only [hc1, hc2, if_false]
          cases hh : env.hash signupRequest.Password with
          | error msg => simp [hh] at hmem
          | ok encoded =>
            simp only [hh] at hmem ⊢
            cases h4 : env.fault 4 with
            | some msg => simp [h4] at hmem
            | none => simp [hf, Resp.status]

/-- An instance of `checked_store_failure_generic_500`: `CreateForm` failing for
the signed-in user "ann", and the insert failing in a replacement of the
questions of form 7. -/
theorem checked_store_failure_generic_500_witness :
    (failingEnv 1 "connection reset").fault 1 = some "connection reset" ∧
      Call.CreateForm ∈ (createFormHandler (failingEnv 1 "connection reset")
          (usersStore [verifiedUser]) (some "ann") (.ok (demoFormBody "U1"))).trace ∧
      ((createFormHandler (failingEnv 1 "connection reset") (usersStore [verifiedUser])
            (some "ann") (.ok (demoFormBody "U1"))).resp =
          Resp.json 500 (Body.err "Could not save form") ∧
        (createFormHandler (failingEnv 1 "connection reset") (usersStore [verifiedUser])
            (some "ann") (.ok (demoFormBody "U1"))).db = usersStore [verifiedUser]) ∧
      (failingEnv 3 "disk full").fault 3 = some "disk full" ∧
      Call.CreateQuestions ∈ (setQuestionsHandler (failingEnv 3 "disk full")
          (demoStore demoQuestions) "F7" (.ok [demoRequest "New"])).trace ∧
      ((setQuestionsHandler (failingEnv 3 "disk full") (demoStore demoQuestions) "F7"
            (.ok [demoRequest "New"])).resp =
          Resp.json 500 (Body.err "Could not save questions") ∧
        (setQuestionsHandler (failingEnv 3 "disk full") (demoStore demoQuestions) "F7"
            (.ok [demoRequest "New"])).db = demoStore demoQuestions ∧
        Call.Rollback ∈ (setQuestionsHandler (failingEnv 3 "disk full")
            (demoStore demoQuestions) "F7" (.ok [demoRequest "New"])).trace) :=
  ⟨rfl, by decide,
    checked_store_failure_generic_500.1 (failingEnv 1 "connection reset")
      (usersStore [verifiedUser]) (some "ann") (.ok (demoFormBody "U1")) "connection reset" rfl
      (by decide),
    rfl, by decide,
    checked_store_failure_generic_500.2.2.2.2.2.2.1 (failingEnv 3 "disk full")
      (demoStore demoQuestions) "F7" (.ok [demoRequest "New"]) "disk full" rfl (by decide)⟩

end GForms
